import Mathlib

/-!
Verification development for the `smartapp-sdk` core: a shallow embedding of
`smartapp/converter.py`, `smartapp/dispatcher.py` and `smartapp/interface.py`.

Conventions of the embedding:
* Python strings are Lean `String`; Python `int` is `Int`; Python `None` on an
  optional value is `Option.none`.
* A JSON (or YAML) document tree is `JValue`.  The text layer (`json.dumps` and
  `json.loads`, `yaml.safe_dump` and `yaml.safe_load`) is an external library
  that is a faithful inverse pair on trees, so marshaling is modelled at the
  tree level: `unstructure` functions produce a `JValue` and `structure`
  functions consume one, exactly mirroring the cattrs hooks registered in
  `converter.py`.
* Python exceptions are the inductive `PyExc`; raising is returning
  `Except.error`.  The exception mapping at the bottom of
  `SmartAppDispatcher.dispatch` becomes `map_exception`.
* `arrow.Arrow` values are modelled as UTC calendar tuples (`Arrow` below),
  since the codec in `converter.py` always converts to UTC.
-/

/-! ### Python string primitives used by the source -/

/-- Python `str.lower()` restricted to the ASCII header names used here. -/
def pyLower (s : String) : String :=
  String.mk (s.toList.map Char.toLower)

/-- The characters Python `str.strip()` removes (ASCII whitespace). -/
def isPySpace (c : Char) : Bool :=
  c == ' ' || c == '\t' || c == '\n' || c == '\r' || c == '\x0b' || c == '\x0c'

/-- Python `str.strip()`: drop leading and trailing whitespace. -/
def pyStrip (s : String) : String :=
  String.mk (((s.toList.dropWhile isPySpace).reverse.dropWhile isPySpace).reverse)

/-- Helper for Python `str.title()`: the boolean tracks whether the previous
character was alphabetic (a "cased" character). -/
def pyTitleAux : Bool → List Char → List Char
  | _, [] => []
  | prevAlpha, c :: rest =>
    (if c.isAlpha then (if prevAlpha then c.toLower else c.toUpper) else c)
      :: pyTitleAux c.isAlpha rest

/-- Python `str.title()` on the ASCII identifiers used for field names. -/
def pyTitle (s : String) : String :=
  String.mk (pyTitleAux false s.toList)

/-- Python `str.split("_")` on the character list: components between
underscores, empty components preserved, `[""]` for the empty string. -/
def splitUnderscore : List Char → List (List Char)
  | [] => [[]]
  | '_' :: rest => [] :: splitUnderscore rest
  | c :: rest =>
    match splitUnderscore rest with
    | [] => [[c]]
    | g :: gs => (c :: g) :: gs

/-- `StandardConverter._to_camel_case`: split on underscores, keep the first
component, title-case the rest and join. -/
def toCamelCase (name : String) : String :=
  match splitUnderscore name.toList with
  | [] => ""
  | c :: rest => String.mk c ++ String.join (rest.map (fun g => pyTitle (String.mk g)))

/-! ### Python `int(str)` -/

/-- A decimal digit of a character, if any. -/
def charToDigit (c : Char) : Option Nat :=
  if c.isDigit then some (c.toNat - 48) else none

/-- Digits after the first one: single underscores are allowed between digits
(Python 3 integer literal grammar used by `int`). -/
def pyDigitsRest : List Char → Option (List Nat)
  | [] => some []
  | '_' :: [] => none
  | '_' :: c :: rest =>
    match charToDigit c with
    | some d => (pyDigitsRest rest).map (d :: ·)
    | none => none
  | c :: rest =>
    match charToDigit c with
    | some d => (pyDigitsRest rest).map (d :: ·)
    | none => none

/-- Magnitude part of `int(str)`: at least one digit, then `pyDigitsRest`. -/
def pyIntMag (cs : List Char) : Option Nat :=
  match cs with
  | [] => none
  | c :: rest =>
    match charToDigit c with
    | some d => (pyDigitsRest rest).map (fun ds => (d :: ds).foldl (fun a x => a * 10 + x) 0)
    | none => none

/-- Python `int(s)` for a string `s`: strip whitespace, optional sign, digits.
Returns `none` where Python raises `ValueError` (invalid literal). -/
def pyInt (s : String) : Option Int :=
  match (pyStrip s).toList with
  | '+' :: rest => (pyIntMag rest).map Int.ofNat
  | '-' :: rest => (pyIntMag rest).map (fun n => -(Int.ofNat n))
  | rest => (pyIntMag rest).map Int.ofNat

/-- Python list subscription `l[i]` with negative-index wrap-around; `none`
models `IndexError`. -/
def pyIndex {α : Type} (l : List α) (i : Int) : Option α :=
  if 0 ≤ i then l.get? i.toNat
  else if 0 ≤ (l.length : Int) + i then l.get? ((l.length : Int) + i).toNat
  else none

/-- Python `repr` of a string as interpolated by the `int()` error message. -/
def pyQuote (s : String) : String :=
  "\x27" ++ s ++ "\x27"

/-! ### The timestamp codec (`converter.py`) -/

/-- An `arrow.Arrow` instant, modelled as a UTC calendar tuple.  The bounds of
`Arrow.valid` below are the invariants of Python `datetime`. -/
structure Arrow where
  year : Nat
  month : Nat
  day : Nat
  hour : Nat
  minute : Nat
  second : Nat
  microsecond : Nat
deriving DecidableEq, Repr

/-- The invariants Python `datetime` (hence `arrow.Arrow`) enforces. -/
abbrev Arrow.valid (a : Arrow) : Prop :=
  1 ≤ a.year ∧ a.year ≤ 9999 ∧ 1 ≤ a.month ∧ a.month ≤ 12 ∧ 1 ≤ a.day ∧ a.day ≤ 31 ∧
    a.hour ≤ 23 ∧ a.minute ≤ 59 ∧ a.second ≤ 59 ∧ a.microsecond ≤ 999999

def digits2 (n : Nat) : List Char :=
  [Nat.digitChar (n / 10 % 10), Nat.digitChar (n % 10)]

def digits3 (n : Nat) : List Char :=
  [Nat.digitChar (n / 100 % 10), Nat.digitChar (n / 10 % 10), Nat.digitChar (n % 10)]

def digits4 (n : Nat) : List Char :=
  [Nat.digitChar (n / 1000 % 10), Nat.digitChar (n / 100 % 10),
    Nat.digitChar (n / 10 % 10), Nat.digitChar (n % 10)]

def DATETIME_SEC_EPOCH : String := "1970-01-01T00:00:00Z"
def DATETIME_SEC_LEN : Nat := "YYYY-MM-DDTHH:MM:SSZ".length
def DATETIME_MS_EPOCH : String := "1970-01-01T00:00:00.000Z"
def DATETIME_MS_LEN : Nat := "YYYY-MM-DDTHH:MM:SS.SSSZ".length

/-- Character list of a serialized timestamp. -/
def serializeL (a : Arrow) : List Char :=
  digits4 a.year ++ '-' :: digits2 a.month ++ '-' :: digits2 a.day ++
    'T' :: digits2 a.hour ++ ':' :: digits2 a.minute ++ ':' :: digits2 a.second ++
    '.' :: digits3 (a.microsecond / 1000) ++ ['Z']

/-- `serialize_datetime`: always millisecond precision, UTC ('SSS' truncates
the microseconds to milliseconds). -/
def serialize_datetime (a : Arrow) : String :=
  String.mk (serializeL a)

def parse2c (a b : Char) : Option Nat := do
  let x ← charToDigit a
  let y ← charToDigit b
  pure (x * 10 + y)

def parse3c (a b c : Char) : Option Nat := do
  let x ← charToDigit a
  let y ← charToDigit b
  let z ← charToDigit c
  pure (x * 100 + y * 10 + z)

def parse4c (a b c d : Char) : Option Nat := do
  let x ← charToDigit a
  let y ← charToDigit b
  let z ← charToDigit c
  let w ← charToDigit d
  pure (x * 1000 + y * 100 + z * 10 + w)

/-- Character-list core of `parseMs`. -/
def parseMsL : List Char → Option Arrow
  | y1 :: y2 :: y3 :: y4 :: p1 :: o1 :: o2 :: p2 :: d1 :: d2 :: p3 :: h1 :: h2 :: p4 ::
      i1 :: i2 :: p5 :: c1 :: c2 :: p6 :: m1 :: m2 :: m3 :: p7 :: [] =>
    if p1 = '-' ∧ p2 = '-' ∧ p3 = 'T' ∧ p4 = ':' ∧ p5 = ':' ∧ p6 = '.' ∧ p7 = 'Z' then do
      let y ← parse4c y1 y2 y3 y4
      let mo ← parse2c o1 o2
      let dd ← parse2c d1 d2
      let hh ← parse2c h1 h2
      let mi ← parse2c i1 i2
      let ss ← parse2c c1 c2
      let ms ← parse3c m1 m2 m3
      pure (Arrow.mk y mo dd hh mi ss (ms * 1000))
    else none
  | _ => none

/-- `arrow.get` against the millisecond format `YYYY-MM-DD[T]HH:mm:ss.SSS[Z]`
with UTC: the parsed instant, or `none` where arrow raises `ParserError`. -/
def parseMs (s : String) : Option Arrow :=
  parseMsL s.toList

/-- Character-list core of `parseSec`. -/
def parseSecL : List Char → Option Arrow
  | y1 :: y2 :: y3 :: y4 :: p1 :: o1 :: o2 :: p2 :: d1 :: d2 :: p3 :: h1 :: h2 :: p4 ::
      i1 :: i2 :: p5 :: c1 :: c2 :: p6 :: [] =>
    if p1 = '-' ∧ p2 = '-' ∧ p3 = 'T' ∧ p4 = ':' ∧ p5 = ':' ∧ p6 = 'Z' then do
      let y ← parse4c y1 y2 y3 y4
      let mo ← parse2c o1 o2
      let dd ← parse2c d1 d2
      let hh ← parse2c h1 h2
      let mi ← parse2c i1 i2
      let ss ← parse2c c1 c2
      pure (Arrow.mk y mo dd hh mi ss 0)
    else none
  | _ => none

/-- `arrow.get` against the second format `YYYY-MM-DD[T]HH:mm:ss[Z]` with UTC. -/
def parseSec (s : String) : Option Arrow :=
  parseSecL s.toList

/-! ### Wire trees

A parsed JSON or YAML document.  `obj` keeps fields in document order; a later
duplicate key wins on lookup, matching `json.loads`. -/

inductive JValue where
  | null : JValue
  | bool (b : Bool) : JValue
  | int (n : Int) : JValue
  | str (s : String) : JValue
  | arr (items : List JValue) : JValue
  | obj (fields : List (String × JValue)) : JValue

/-- Dictionary lookup on a parsed object, later duplicate key winning. -/
def jlookup (fs : List (String × JValue)) (k : String) : Option JValue :=
  fs.foldl (fun acc kv => if kv.1 = k then some kv.2 else acc) none

/-! ### Enumerations (`interface.py`)

For each Python `Enum`, `value` is the member's `.value`, `from_name` models
`E[s]` (lookup by member name, `None` for `KeyError`) and `from_value` models
`E(s)` (lookup by value, as cattrs does for enum-typed fields). -/

inductive LifecyclePhase where
  | CONFIRMATION | CONFIGURATION | INSTALL | UPDATE | UNINSTALL | OAUTH_CALLBACK | EVENT
deriving DecidableEq, Repr

def LifecyclePhase.value : LifecyclePhase → String
  | .CONFIRMATION => "CONFIRMATION"
  | .CONFIGURATION => "CONFIGURATION"
  | .INSTALL => "INSTALL"
  | .UPDATE => "UPDATE"
  | .UNINSTALL => "UNINSTALL"
  | .OAUTH_CALLBACK => "OAUTH_CALLBACK"
  | .EVENT => "EVENT"

def LifecyclePhase.from_name (s : String) : Option LifecyclePhase :=
  match s with
  | "CONFIRMATION" => some .CONFIRMATION
  | "CONFIGURATION" => some .CONFIGURATION
  | "INSTALL" => some .INSTALL
  | "UPDATE" => some .UPDATE
  | "UNINSTALL" => some .UNINSTALL
  | "OAUTH_CALLBACK" => some .OAUTH_CALLBACK
  | "EVENT" => some .EVENT
  | _ => none

def LifecyclePhase.from_value (s : String) : Option LifecyclePhase :=
  LifecyclePhase.from_name s

inductive ConfigValueType where
  | DEVICE | STRING
deriving DecidableEq, Repr

def ConfigValueType.value : ConfigValueType → String
  | .DEVICE => "DEVICE"
  | .STRING => "STRING"

def ConfigValueType.from_name (s : String) : Option ConfigValueType :=
  match s with
  | "DEVICE" => some .DEVICE
  | "STRING" => some .STRING
  | _ => none

def ConfigValueType.from_value (s : String) : Option ConfigValueType :=
  ConfigValueType.from_name s

/-- `ConfigPhase`; the member `INITIALIZE` is abbreviated `INIT` here, its
`.value` string is unchanged. -/
inductive ConfigPhase where
  | INIT | PAGE
deriving DecidableEq, Repr

def ConfigPhase.value : ConfigPhase → String
  | .INIT => "INITIALIZE"
  | .PAGE => "PAGE"

def ConfigPhase.from_value (s : String) : Option ConfigPhase :=
  match s with
  | "INITIALIZE" => some .INIT
  | "PAGE" => some .PAGE
  | _ => none

inductive ConfigSettingType where
  | DEVICE | TEXT | BOOLEAN | ENUM | LINK | PAGE | IMAGE | ICON | TIME
  | PARAGRAPH | EMAIL | DECIMAL | NUMBER | PHONE | OAUTH
deriving DecidableEq, Repr

def ConfigSettingType.value : ConfigSettingType → String
  | .DEVICE => "DEVICE"
  | .TEXT => "TEXT"
  | .BOOLEAN => "BOOLEAN"
  | .ENUM => "ENUM"
  | .LINK => "LINK"
  | .PAGE => "PAGE"
  | .IMAGE => "IMAGE"
  | .ICON => "ICON"
  | .TIME => "TIME"
  | .PARAGRAPH => "PARAGRAPH"
  | .EMAIL => "EMAIL"
  | .DECIMAL => "DECIMAL"
  | .NUMBER => "NUMBER"
  | .PHONE => "PHONE"
  | .OAUTH => "OAUTH"

def ConfigSettingType.from_name (s : String) : Option ConfigSettingType :=
  match s with
  | "DEVICE" => some .DEVICE
  | "TEXT" => some .TEXT
  | "BOOLEAN" => some .BOOLEAN
  | "ENUM" => some .ENUM
  | "LINK" => some .LINK
  | "PAGE" => some .PAGE
  | "IMAGE" => some .IMAGE
  | "ICON" => some .ICON
  | "TIME" => some .TIME
  | "PARAGRAPH" => some .PARAGRAPH
  | "EMAIL" => some .EMAIL
  | "DECIMAL" => some .DECIMAL
  | "NUMBER" => some .NUMBER
  | "PHONE" => some .PHONE
  | "OAUTH" => some .OAUTH
  | _ => none

def ConfigSettingType.from_value (s : String) : Option ConfigSettingType :=
  ConfigSettingType.from_name s

inductive EventType where
  | DEVICE_COMMANDS_EVENT | DEVICE_EVENT | DEVICE_HEALTH_EVENT | DEVICE_LIFECYCLE_EVENT
  | HUB_HEALTH_EVENT | INSTALLED_APP_LIFECYCLE_EVENT | MODE_EVENT | SCENE_LIFECYCLE_EVENT
  | SECURITY_ARM_STATE_EVENT | TIMER_EVENT | WEATHER_EVENT
deriving DecidableEq, Repr

def EventType.value : EventType → String
  | .DEVICE_COMMANDS_EVENT => "DEVICE_COMMANDS_EVENT"
  | .DEVICE_EVENT => "DEVICE_EVENT"
  | .DEVICE_HEALTH_EVENT => "DEVICE_HEALTH_EVENT"
  | .DEVICE_LIFECYCLE_EVENT => "DEVICE_LIFECYCLE_EVENT"
  | .HUB_HEALTH_EVENT => "HUB_HEALTH_EVENT"
  | .INSTALLED_APP_LIFECYCLE_EVENT => "INSTALLED_APP_LIFECYCLE_EVENT"
  | .MODE_EVENT => "MODE_EVENT"
  | .SCENE_LIFECYCLE_EVENT => "SCENE_LIFECYCLE_EVENT"
  | .SECURITY_ARM_STATE_EVENT => "SECURITY_ARM_STATE_EVENT"
  | .TIMER_EVENT => "TIMER_EVENT"
  | .WEATHER_EVENT => "WEATHER_EVENT"

def EventType.from_value (s : String) : Option EventType :=
  match s with
  | "DEVICE_COMMANDS_EVENT" => some .DEVICE_COMMANDS_EVENT
  | "DEVICE_EVENT" => some .DEVICE_EVENT
  | "DEVICE_HEALTH_EVENT" => some .DEVICE_HEALTH_EVENT
  | "DEVICE_LIFECYCLE_EVENT" => some .DEVICE_LIFECYCLE_EVENT
  | "HUB_HEALTH_EVENT" => some .HUB_HEALTH_EVENT
  | "INSTALLED_APP_LIFECYCLE_EVENT" => some .INSTALLED_APP_LIFECYCLE_EVENT
  | "MODE_EVENT" => some .MODE_EVENT
  | "SCENE_LIFECYCLE_EVENT" => some .SCENE_LIFECYCLE_EVENT
  | "SECURITY_ARM_STATE_EVENT" => some .SECURITY_ARM_STATE_EVENT
  | "TIMER_EVENT" => some .TIMER_EVENT
  | "WEATHER_EVENT" => some .WEATHER_EVENT
  | _ => none

/-- `BooleanValue` (a `StrEnum`): member names TRUE and FALSE, values
"true" and "false". -/
inductive BooleanValue where
  | TRUE | FALSE
deriving DecidableEq, Repr

def BooleanValue.value : BooleanValue → String
  | .TRUE => "true"
  | .FALSE => "false"

def BooleanValue.from_value (s : String) : Option BooleanValue :=
  match s with
  | "true" => some .TRUE
  | "false" => some .FALSE
  | _ => none

/-! ### Exceptions -/

/-- The three error kinds of the SmartApp error taxonomy. -/
inductive ErrKind where
  | internal | badRequest | signature
deriving DecidableEq, Repr

/-- Python exceptions that can cross the `dispatch` boundary.  `smartAppError`
covers `SmartAppError` and its three subclasses (`InternalError`,
`BadRequestError`, `SignatureError`), distinguished by their kind.
`jsonDecodeError` is `json.JSONDecodeError`; `valueError` is `ValueError`
(including `arrow` parser errors, which subclass it); `keyError` is `KeyError`;
`classValidationError` is a cattrs `ClassValidationError` exception group
(which subclasses `ExceptionGroup`, not `ValueError`), carrying the error it
wraps; `otherError` is any other `Exception`.  The carried string is what
`"%s" % e` renders. -/
inductive PyExc where
  | smartAppError (kind : ErrKind) (message : String) (correlationId : Option String)
  | jsonDecodeError (message : String)
  | valueError (message : String)
  | keyError (message : String)
  | classValidationError (message : String) (cause : PyExc)
  | otherError (message : String)
deriving DecidableEq, Repr

/-- `arrow.get(s, DATETIME_MS_FORMAT, tzinfo="UTC")`: `ParserError` subclasses
`ValueError`. -/
def arrowGetMs (s : String) : Except PyExc Arrow :=
  match parseMs s with
  | some a => .ok a
  | none => .error (.valueError ("Could not parse datetime: " ++ s))

/-- `arrow.get(s, DATETIME_SEC_FORMAT, tzinfo="UTC")`. -/
def arrowGetSec (s : String) : Except PyExc Arrow :=
  match parseSec s with
  | some a => .ok a
  | none => .error (.valueError ("Could not parse datetime: " ++ s))

/-- `deserialize_datetime`, with `now` the result `arrow.now()` would return
at the instant of the call: either epoch sentinel decodes to `now`; then a
24-character string is parsed at millisecond precision; then a 20-character
string at second precision; anything else is a `ValueError`. -/
def deserialize_datetime (s : String) (now : Arrow) : Except PyExc Arrow :=
  if s = DATETIME_MS_EPOCH ∨ s = DATETIME_SEC_EPOCH then .ok now
  else if s.length = DATETIME_MS_LEN then arrowGetMs s
  else if s.length = DATETIME_SEC_LEN then arrowGetSec s
  else .error (.valueError ("Unknown datetime format: " ++ s))

/-! ### The data model (`interface.py`)

Each `@frozen` attrs class becomes a structure with the same fields in the same
order; `dict[str, Any]` fields become `List (String × JValue)` (the parsed
JSON subtree passes through cattrs untouched); defaulted fields keep their
defaults. -/

structure ConfirmationData where
  app_id : String
  confirmation_url : String
deriving DecidableEq, Repr

structure ConfigInit where
  id : String
  name : String
  description : String
  permissions : List String
  first_page_id : String
deriving DecidableEq, Repr

structure DeviceValue where
  device_id : String
  component_id : String
deriving DecidableEq, Repr

structure DeviceConfigValue where
  device_config : DeviceValue
  value_type : ConfigValueType := .DEVICE
deriving DecidableEq, Repr

structure StringValue where
  value : String
deriving DecidableEq, Repr

structure StringConfigValue where
  string_config : StringValue
  value_type : ConfigValueType := .STRING
deriving DecidableEq, Repr

/-- The union `ConfigValue = DeviceConfigValue | StringConfigValue`. -/
inductive ConfigValue where
  | device (v : DeviceConfigValue)
  | string (v : StringConfigValue)
deriving DecidableEq, Repr

structure InstalledApp where
  installed_app_id : String
  location_id : String
  config : List (String × List ConfigValue)
  permissions : List String := []
deriving DecidableEq, Repr

structure Event where
  event_time : Option Arrow := none
  event_type : EventType
  device_event : Option (List (String × JValue)) := none
  device_lifecycle_event : Option (List (String × JValue)) := none
  device_health_event : Option (List (String × JValue)) := none
  device_commands_event : Option (List (String × JValue)) := none
  mode_event : Option (List (String × JValue)) := none
  timer_event : Option (List (String × JValue)) := none
  scene_lifecycle_event : Option (List (String × JValue)) := none
  security_arm_state_event : Option (List (String × JValue)) := none
  hub_health_event : Option (List (String × JValue)) := none
  installed_app_lifecycle_event : Option (List (String × JValue)) := none
  weather_event : Option (List (String × JValue)) := none
  weather_data : Option (List (String × JValue)) := none
  air_quality_data : Option (List (String × JValue)) := none

structure ConfigRequestData where
  installed_app_id : String
  phase : ConfigPhase
  page_id : String
  previous_page_id : String
  config : List (String × List ConfigValue)
deriving DecidableEq, Repr

structure ConfigInitData where
  initialize' : ConfigInit
deriving DecidableEq, Repr

/-! The settings hierarchy: every concrete `ConfigSetting` variant has the
`AbstractSetting` fields (`id`, `name`, `description`, `required`) followed by
its own fields, in source order. -/

structure DeviceSetting where
  id : String
  name : String
  description : String
  required : Option Bool := some false
  type : ConfigSettingType := .DEVICE
  multiple : Bool
  capabilities : List String
  permissions : List String
deriving DecidableEq, Repr

structure TextSetting where
  id : String
  name : String
  description : String
  required : Option Bool := some false
  type : ConfigSettingType := .TEXT
  default_value : String
deriving DecidableEq, Repr

structure BooleanSetting where
  id : String
  name : String
  description : String
  required : Option Bool := some false
  type : ConfigSettingType := .BOOLEAN
  default_value : BooleanValue
deriving DecidableEq, Repr

structure EnumOption where
  id : String
  name : String
deriving DecidableEq, Repr

structure EnumOptionGroup where
  name : String
  options : List EnumOption
deriving DecidableEq, Repr

structure EnumSetting where
  id : String
  name : String
  description : String
  required : Option Bool := some false
  type : ConfigSettingType := .ENUM
  multiple : Bool
  options : Option (List EnumOption) := none
  grouped_options : Option (List EnumOptionGroup) := none
deriving DecidableEq, Repr

structure LinkSetting where
  id : String
  name : String
  description : String
  required : Option Bool := some false
  type : ConfigSettingType := .LINK
  url : String
  image : String
deriving DecidableEq, Repr

structure PageSetting where
  id : String
  name : String
  description : String
  required : Option Bool := some false
  type : ConfigSettingType := .PAGE
  page : String
  image : String
deriving DecidableEq, Repr

structure ImageSetting where
  id : String
  name : String
  description : String
  required : Option Bool := some false
  type : ConfigSettingType := .IMAGE
  image : String
deriving DecidableEq, Repr

structure IconSetting where
  id : String
  name : String
  description : String
  required : Option Bool := some false
  type : ConfigSettingType := .ICON
  image : String
deriving DecidableEq, Repr

structure TimeSetting where
  id : String
  name : String
  description : String
  required : Option Bool := some false
  type : ConfigSettingType := .TIME
deriving DecidableEq, Repr

structure ParagraphSetting where
  id : String
  name : String
  description : String
  required : Option Bool := some false
  type : ConfigSettingType := .PARAGRAPH
  default_value : String
deriving DecidableEq, Repr

structure EmailSetting where
  id : String
  name : String
  description : String
  required : Option Bool := some false
  type : ConfigSettingType := .EMAIL
deriving DecidableEq, Repr

structure DecimalSetting where
  id : String
  name : String
  description : String
  required : Option Bool := some false
  type : ConfigSettingType := .DECIMAL
deriving DecidableEq, Repr

structure NumberSetting where
  id : String
  name : String
  description : String
  required : Option Bool := some false
  type : ConfigSettingType := .NUMBER
deriving DecidableEq, Repr

structure PhoneSetting where
  id : String
  name : String
  description : String
  required : Option Bool := some false
  type : ConfigSettingType := .PHONE
deriving DecidableEq, Repr

structure OauthSetting where
  id : String
  name : String
  description : String
  required : Option Bool := some false
  type : ConfigSettingType := .OAUTH
  browser : Bool
  url_template : String
deriving DecidableEq, Repr

/-- The 15-member `ConfigSetting` union. -/
inductive ConfigSetting where
  | device (v : DeviceSetting)
  | text (v : TextSetting)
  | boolean (v : BooleanSetting)
  | enum (v : EnumSetting)
  | link (v : LinkSetting)
  | page (v : PageSetting)
  | image (v : ImageSetting)
  | icon (v : IconSetting)
  | time (v : TimeSetting)
  | paragraph (v : ParagraphSetting)
  | email (v : EmailSetting)
  | decimal (v : DecimalSetting)
  | number (v : NumberSetting)
  | phone (v : PhoneSetting)
  | oauth (v : OauthSetting)
deriving DecidableEq, Repr

structure ConfigSection where
  name : String
  settings : List ConfigSetting
deriving DecidableEq, Repr

structure ConfigPage where
  page_id : String
  name : String
  previous_page_id : Option String
  next_page_id : Option String
  complete : Bool
  sections : List ConfigSection
deriving DecidableEq, Repr

structure ConfigPageData where
  page : ConfigPage
deriving DecidableEq, Repr

structure InstallData where
  auth_token : String
  refresh_token : String
  installed_app : InstalledApp
deriving DecidableEq, Repr

structure UpdateData where
  auth_token : String
  refresh_token : String
  installed_app : InstalledApp
  previous_config : Option (List (String × List ConfigValue)) := none
  previous_permissions : List String := []
deriving DecidableEq, Repr

structure UninstallData where
  installed_app : InstalledApp
deriving DecidableEq, Repr

structure OauthCallbackData where
  installed_app_id : String
  url_path : String
deriving DecidableEq, Repr

structure EventData where
  auth_token : String
  installed_app : InstalledApp
  events : List Event

/-! ### Requests and responses

Each request has the `AbstractRequest` fields (`lifecycle`, `execution_id`,
`locale`, `version`) first, then its own fields, in source order.
`OauthCallbackRequest` has no `settings` field in the source. -/

structure ConfirmationRequest where
  lifecycle : LifecyclePhase
  execution_id : String
  locale : String
  version : String
  app_id : String
  confirmation_data : ConfirmationData
  settings : List (String × JValue) := []

structure ConfigurationRequest where
  lifecycle : LifecyclePhase
  execution_id : String
  locale : String
  version : String
  configuration_data : ConfigRequestData
  settings : List (String × JValue) := []

structure InstallRequest where
  lifecycle : LifecyclePhase
  execution_id : String
  locale : String
  version : String
  install_data : InstallData
  settings : List (String × JValue) := []

structure UpdateRequest where
  lifecycle : LifecyclePhase
  execution_id : String
  locale : String
  version : String
  update_data : UpdateData
  settings : List (String × JValue) := []

structure UninstallRequest where
  lifecycle : LifecyclePhase
  execution_id : String
  locale : String
  version : String
  uninstall_data : UninstallData
  settings : List (String × JValue) := []

structure OauthCallbackRequest where
  lifecycle : LifecyclePhase
  execution_id : String
  locale : String
  version : String
  o_auth_callback_data : OauthCallbackData

structure EventRequest where
  lifecycle : LifecyclePhase
  execution_id : String
  locale : String
  version : String
  event_data : EventData
  settings : List (String × JValue) := []

/-- The `LifecycleRequest` union, in source order. -/
inductive LifecycleRequest where
  | configuration (r : ConfigurationRequest)
  | confirmation (r : ConfirmationRequest)
  | install (r : InstallRequest)
  | update (r : UpdateRequest)
  | uninstall (r : UninstallRequest)
  | oauthCallback (r : OauthCallbackRequest)
  | event (r : EventRequest)

structure ConfirmationResponse where
  target_url : String
deriving DecidableEq, Repr

structure ConfigurationInitResponse where
  configuration_data : ConfigInitData
deriving DecidableEq, Repr

structure ConfigurationPageResponse where
  configuration_data : ConfigPageData
deriving DecidableEq, Repr

structure InstallResponse where
  install_data : List (String × JValue) := []

structure UpdateResponse where
  update_data : List (String × JValue) := []

structure UninstallResponse where
  uninstall_data : List (String × JValue) := []

structure OauthCallbackResponse where
  o_auth_callback_data : List (String × JValue) := []

structure EventResponse where
  event_data : List (String × JValue) := []

/-- The `LifecycleResponse` union, in source order. -/
inductive LifecycleResponse where
  | configurationInit (r : ConfigurationInitResponse)
  | configurationPage (r : ConfigurationPageResponse)
  | confirmation (r : ConfirmationResponse)
  | install (r : InstallResponse)
  | update (r : UpdateResponse)
  | uninstall (r : UninstallResponse)
  | oauthCallback (r : OauthCallbackResponse)
  | event (r : EventResponse)

/-! ### Definition, configuration, handlers, context -/

structure SmartAppConfigPage where
  page_name : String
  sections : List ConfigSection
deriving DecidableEq, Repr

structure SmartAppDefinition where
  id : String
  name : String
  description : String
  target_url : String
  permissions : List String
  config_pages : Option (List SmartAppConfigPage)
deriving DecidableEq, Repr

/-- `SmartAppDispatcherConfig` with its source defaults. -/
structure SmartAppDispatcherConfig where
  check_signatures : Bool := true
  clock_skew_sec : Option Int := some 300
  keyserver_url : String := "https://key.smartthings.com"
  log_json : Bool := false
deriving DecidableEq, Repr

/-- The default-constructed `SmartAppDispatcherConfig()`. -/
def defaultDispatcherConfig : SmartAppDispatcherConfig := {}

def AUTHORIZATION_HEADER : String := "authorization"
def CORRELATION_ID_HEADER : String := "x-st-correlation"
def DATE_HEADER : String := "date"

/-- The body string of a request after `json.loads`: either the parse failed
(`json.JSONDecodeError`) or produced a tree. -/
inductive RequestBody where
  | malformed (message : String)
  | parsed (j : JValue)

/-- `SmartAppRequestContext`: the headers mapping (in insertion order) and the
body.  The derived attributes (`normalized`, `correlation_id`, `signature`,
`date`) are the functions below. -/
structure SmartAppRequestContext where
  headers : List (String × String) := []
  body : RequestBody := .parsed .null

/-- The `normalized` attribute as a lookup: keys are lower-cased, a later
duplicate key winning as in the Python dict comprehension. -/
def normalized (headers : List (String × String)) (k : String) : Option String :=
  headers.foldl (fun acc kv => if pyLower kv.1 = k then some kv.2 else acc) none

/-- `SmartAppRequestContext.header`: case-insensitive lookup; a missing header,
or one whose value is empty or strips to empty, is `None`. -/
def SmartAppRequestContext.header (ctx : SmartAppRequestContext) (name : String) : Option String :=
  match normalized ctx.headers (pyLower name) with
  | none => none
  | some value => if value = "" ∨ pyStrip value = "" then none else some value

/-- The derived `correlation_id` attribute. -/
def SmartAppRequestContext.correlation_id (ctx : SmartAppRequestContext) : Option String :=
  ctx.header CORRELATION_ID_HEADER

/-- The derived `signature` attribute. -/
def SmartAppRequestContext.signature_header (ctx : SmartAppRequestContext) : Option String :=
  ctx.header AUTHORIZATION_HEADER

/-- The derived `date` attribute. -/
def SmartAppRequestContext.date (ctx : SmartAppRequestContext) : Option String :=
  ctx.header DATE_HEADER

/-! ### Marshaling, encode side

`make_dict_unstructure_fn` with the `_to_camel_case` rename override: every
attrs field is written under `toCamelCase` of its Python name, in field order.
Enum fields are written as their `.value`; `Arrow` fields via
`serialize_datetime`; optional fields as `null` when `None`; `dict[str, Any]`
fields pass through. -/

def unstructure_opt {α : Type} (f : α → JValue) : Option α → JValue
  | none => .null
  | some x => f x

def unstructure_str_list (l : List String) : JValue :=
  .arr (l.map .str)

/-- `SmartAppConverter._unstructure_datetime` at tree level. -/
def _unstructure_datetime (a : Arrow) : JValue :=
  .str (serialize_datetime a)

def unstructure_ConfirmationData (v : ConfirmationData) : JValue :=
  .obj [(toCamelCase "app_id", .str v.app_id),
    (toCamelCase "confirmation_url", .str v.confirmation_url)]

def unstructure_DeviceValue (v : DeviceValue) : JValue :=
  .obj [(toCamelCase "device_id", .str v.device_id),
    (toCamelCase "component_id", .str v.component_id)]

def unstructure_DeviceConfigValue (v : DeviceConfigValue) : JValue :=
  .obj [(toCamelCase "device_config", unstructure_DeviceValue v.device_config),
    (toCamelCase "value_type", .str v.value_type.value)]

def unstructure_StringValue (v : StringValue) : JValue :=
  .obj [(toCamelCase "value", .str v.value)]

def unstructure_StringConfigValue (v : StringConfigValue) : JValue :=
  .obj [(toCamelCase "string_config", unstructure_StringValue v.string_config),
    (toCamelCase "value_type", .str v.value_type.value)]

def unstructure_ConfigValue : ConfigValue → JValue
  | .device v => unstructure_DeviceConfigValue v
  | .string v => unstructure_StringConfigValue v

def unstructure_config_dict (m : List (String × List ConfigValue)) : JValue :=
  .obj (m.map (fun kv => (kv.1, .arr (kv.2.map unstructure_ConfigValue))))

def unstructure_InstalledApp (v : InstalledApp) : JValue :=
  .obj [(toCamelCase "installed_app_id", .str v.installed_app_id),
    (toCamelCase "location_id", .str v.location_id),
    (toCamelCase "config", unstructure_config_dict v.config),
    (toCamelCase "permissions", unstructure_str_list v.permissions)]

def unstructure_Event (v : Event) : JValue :=
  .obj [(toCamelCase "event_time", unstructure_opt _unstructure_datetime v.event_time),
    (toCamelCase "event_type", .str v.event_type.value),
    (toCamelCase "device_event", unstructure_opt .obj v.device_event),
    (toCamelCase "device_lifecycle_event", unstructure_opt .obj v.device_lifecycle_event),
    (toCamelCase "device_health_event", unstructure_opt .obj v.device_health_event),
    (toCamelCase "device_commands_event", unstructure_opt .obj v.device_commands_event),
    (toCamelCase "mode_event", unstructure_opt .obj v.mode_event),
    (toCamelCase "timer_event", unstructure_opt .obj v.timer_event),
    (toCamelCase "scene_lifecycle_event", unstructure_opt .obj v.scene_lifecycle_event),
    (toCamelCase "security_arm_state_event", unstructure_opt .obj v.security_arm_state_event),
    (toCamelCase "hub_health_event", unstructure_opt .obj v.hub_health_event),
    (toCamelCase "installed_app_lifecycle_event", unstructure_opt .obj v.installed_app_lifecycle_event),
    (toCamelCase "weather_event", unstructure_opt .obj v.weather_event),
    (toCamelCase "weather_data", unstructure_opt .obj v.weather_data),
    (toCamelCase "air_quality_data", unstructure_opt .obj v.air_quality_data)]

def unstructure_ConfigRequestData (v : ConfigRequestData) : JValue :=
  .obj [(toCamelCase "installed_app_id", .str v.installed_app_id),
    (toCamelCase "phase", .str v.phase.value),
    (toCamelCase "page_id", .str v.page_id),
    (toCamelCase "previous_page_id", .str v.previous_page_id),
    (toCamelCase "config", unstructure_config_dict v.config)]

def unstructure_DeviceSetting (v : DeviceSetting) : JValue :=
  .obj [(toCamelCase "id", .str v.id),
    (toCamelCase "name", .str v.name),
    (toCamelCase "description", .str v.description),
    (toCamelCase "required", unstructure_opt .bool v.required),
    (toCamelCase "type", .str v.type.value),
    (toCamelCase "multiple", .bool v.multiple),
    (toCamelCase "capabilities", unstructure_str_list v.capabilities),
    (toCamelCase "permissions", unstructure_str_list v.permissions)]

def unstructure_TextSetting (v : TextSetting) : JValue :=
  .obj [(toCamelCase "id", .str v.id),
    (toCamelCase "name", .str v.name),
    (toCamelCase "description", .str v.description),
    (toCamelCase "required", unstructure_opt .bool v.required),
    (toCamelCase "type", .str v.type.value),
    (toCamelCase "default_value", .str v.default_value)]

def unstructure_BooleanSetting (v : BooleanSetting) : JValue :=
  .obj [(toCamelCase "id", .str v.id),
    (toCamelCase "name", .str v.name),
    (toCamelCase "description", .str v.description),
    (toCamelCase "required", unstructure_opt .bool v.required),
    (toCamelCase "type", .str v.type.value),
    (toCamelCase "default_value", .str v.default_value.value)]

def unstructure_EnumOption (v : EnumOption) : JValue :=
  .obj [(toCamelCase "id", .str v.id), (toCamelCase "name", .str v.name)]

def unstructure_EnumOptionGroup (v : EnumOptionGroup) : JValue :=
  .obj [(toCamelCase "name", .str v.name),
    (toCamelCase "options", .arr (v.options.map unstructure_EnumOption))]

/-- Encoded options list of an `EnumSetting`. -/
def unstructure_enum_options (l : List EnumOption) : JValue :=
  .arr (l.map unstructure_EnumOption)

/-- Encoded grouped options list of an `EnumSetting`. -/
def unstructure_enum_option_groups (l : List EnumOptionGroup) : JValue :=
  .arr (l.map unstructure_EnumOptionGroup)

def unstructure_EnumSetting (v : EnumSetting) : JValue :=
  .obj [(toCamelCase "id", .str v.id),
    (toCamelCase "name", .str v.name),
    (toCamelCase "description", .str v.description),
    (toCamelCase "required", unstructure_opt .bool v.required),
    (toCamelCase "type", .str v.type.value),
    (toCamelCase "multiple", .bool v.multiple),
    (toCamelCase "options", unstructure_opt unstructure_enum_options v.options),
    (toCamelCase "grouped_options", unstructure_opt unstructure_enum_option_groups v.grouped_options)]

def unstructure_LinkSetting (v : LinkSetting) : JValue :=
  .obj [(toCamelCase "id", .str v.id),
    (toCamelCase "name", .str v.name),
    (toCamelCase "description", .str v.description),
    (toCamelCase "required", unstructure_opt .bool v.required),
    (toCamelCase "type", .str v.type.value),
    (toCamelCase "url", .str v.url),
    (toCamelCase "image", .str v.image)]

def unstructure_PageSetting (v : PageSetting) : JValue :=
  .obj [(toCamelCase "id", .str v.id),
    (toCamelCase "name", .str v.name),
    (toCamelCase "description", .str v.description),
    (toCamelCase "required", unstructure_opt .bool v.required),
    (toCamelCase "type", .str v.type.value),
    (toCamelCase "page", .str v.page),
    (toCamelCase "image", .str v.image)]

def unstructure_ImageSetting (v : ImageSetting) : JValue :=
  .obj [(toCamelCase "id", .str v.id),
    (toCamelCase "name", .str v.name),
    (toCamelCase "description", .str v.description),
    (toCamelCase "required", unstructure_opt .bool v.required),
    (toCamelCase "type", .str v.type.value),
    (toCamelCase "image", .str v.image)]

def unstructure_IconSetting (v : IconSetting) : JValue :=
  .obj [(toCamelCase "id", .str v.id),
    (toCamelCase "name", .str v.name),
    (toCamelCase "description", .str v.description),
    (toCamelCase "required", unstructure_opt .bool v.required),
    (toCamelCase "type", .str v.type.value),
    (toCamelCase "image", .str v.image)]

def unstructure_TimeSetting (v : TimeSetting) : JValue :=
  .obj [(toCamelCase "id", .str v.id),
    (toCamelCase "name", .str v.name),
    (toCamelCase "description", .str v.description),
    (toCamelCase "required", unstructure_opt .bool v.required),
    (toCamelCase "type", .str v.type.value)]

def unstructure_ParagraphSetting (v : ParagraphSetting) : JValue :=
  .obj [(toCamelCase "id", .str v.id),
    (toCamelCase "name", .str v.name),
    (toCamelCase "description", .str v.description),
    (toCamelCase "required", unstructure_opt .bool v.required),
    (toCamelCase "type", .str v.type.value),
    (toCamelCase "default_value", .str v.default_value)]

def unstructure_EmailSetting (v : EmailSetting) : JValue :=
  .obj [(toCamelCase "id", .str v.id),
    (toCamelCase "name", .str v.name),
    (toCamelCase "description", .str v.description),
    (toCamelCase "required", unstructure_opt .bool v.required),
    (toCamelCase "type", .str v.type.value)]

def unstructure_DecimalSetting (v : DecimalSetting) : JValue :=
  .obj [(toCamelCase "id", .str v.id),
    (toCamelCase "name", .str v.name),
    (toCamelCase "description", .str v.description),
    (toCamelCase "required", unstructure_opt .bool v.required),
    (toCamelCase "type", .str v.type.value)]

def unstructure_NumberSetting (v : NumberSetting) : JValue :=
  .obj [(toCamelCase "id", .str v.id),
    (toCamelCase "name", .str v.name),
    (toCamelCase "description", .str v.description),
    (toCamelCase "required", unstructure_opt .bool v.required),
    (toCamelCase "type", .str v.type.value)]

def unstructure_PhoneSetting (v : PhoneSetting) : JValue :=
  .obj [(toCamelCase "id", .str v.id),
    (toCamelCase "name", .str v.name),
    (toCamelCase "description", .str v.description),
    (toCamelCase "required", unstructure_opt .bool v.required),
    (toCamelCase "type", .str v.type.value)]

def unstructure_OauthSetting (v : OauthSetting) : JValue :=
  .obj [(toCamelCase "id", .str v.id),
    (toCamelCase "name", .str v.name),
    (toCamelCase "description", .str v.description),
    (toCamelCase "required", unstructure_opt .bool v.required),
    (toCamelCase "type", .str v.type.value),
    (toCamelCase "browser", .bool v.browser),
    (toCamelCase "url_template", .str v.url_template)]

def unstructure_ConfigSetting : ConfigSetting → JValue
  | .device v => unstructure_DeviceSetting v
  | .text v => unstructure_TextSetting v
  | .boolean v => unstructure_BooleanSetting v
  | .enum v => unstructure_EnumSetting v
  | .link v => unstructure_LinkSetting v
  | .page v => unstructure_PageSetting v
  | .image v => unstructure_ImageSetting v
  | .icon v => unstructure_IconSetting v
  | .time v => unstructure_TimeSetting v
  | .paragraph v => unstructure_ParagraphSetting v
  | .email v => unstructure_EmailSetting v
  | .decimal v => unstructure_DecimalSetting v
  | .number v => unstructure_NumberSetting v
  | .phone v => unstructure_PhoneSetting v
  | .oauth v => unstructure_OauthSetting v

def unstructure_InstallData (v : InstallData) : JValue :=
  .obj [(toCamelCase "auth_token", .str v.auth_token),
    (toCamelCase "refresh_token", .str v.refresh_token),
    (toCamelCase "installed_app", unstructure_InstalledApp v.installed_app)]

def unstructure_UpdateData (v : UpdateData) : JValue :=
  .obj [(toCamelCase "auth_token", .str v.auth_token),
    (toCamelCase "refresh_token", .str v.refresh_token),
    (toCamelCase "installed_app", unstructure_InstalledApp v.installed_app),
    (toCamelCase "previous_config", unstructure_opt unstructure_config_dict v.previous_config),
    (toCamelCase "previous_permissions", unstructure_str_list v.previous_permissions)]

def unstructure_UninstallData (v : UninstallData) : JValue :=
  .obj [(toCamelCase "installed_app", unstructure_InstalledApp v.installed_app)]

def unstructure_OauthCallbackData (v : OauthCallbackData) : JValue :=
  .obj [(toCamelCase "installed_app_id", .str v.installed_app_id),
    (toCamelCase "url_path", .str v.url_path)]

def unstructure_EventData (v : EventData) : JValue :=
  .obj [(toCamelCase "auth_token", .str v.auth_token),
    (toCamelCase "installed_app", unstructure_InstalledApp v.installed_app),
    (toCamelCase "events", .arr (v.events.map unstructure_Event))]

def unstructure_ConfirmationRequest (v : ConfirmationRequest) : JValue :=
  .obj [(toCamelCase "lifecycle", .str v.lifecycle.value),
    (toCamelCase "execution_id", .str v.execution_id),
    (toCamelCase "locale", .str v.locale),
    (toCamelCase "version", .str v.version),
    (toCamelCase "app_id", .str v.app_id),
    (toCamelCase "confirmation_data", unstructure_ConfirmationData v.confirmation_data),
    (toCamelCase "settings", .obj v.settings)]

def unstructure_ConfigurationRequest (v : ConfigurationRequest) : JValue :=
  .obj [(toCamelCase "lifecycle", .str v.lifecycle.value),
    (toCamelCase "execution_id", .str v.execution_id),
    (toCamelCase "locale", .str v.locale),
    (toCamelCase "version", .str v.version),
    (toCamelCase "configuration_data", unstructure_ConfigRequestData v.configuration_data),
    (toCamelCase "settings", .obj v.settings)]

def unstructure_InstallRequest (v : InstallRequest) : JValue :=
  .obj [(toCamelCase "lifecycle", .str v.lifecycle.value),
    (toCamelCase "execution_id", .str v.execution_id),
    (toCamelCase "locale", .str v.locale),
    (toCamelCase "version", .str v.version),
    (toCamelCase "install_data", unstructure_InstallData v.install_data),
    (toCamelCase "settings", .obj v.settings)]

def unstructure_UpdateRequest (v : UpdateRequest) : JValue :=
  .obj [(toCamelCase "lifecycle", .str v.lifecycle.value),
    (toCamelCase "execution_id", .str v.execution_id),
    (toCamelCase "locale", .str v.locale),
    (toCamelCase "version", .str v.version),
    (toCamelCase "update_data", unstructure_UpdateData v.update_data),
    (toCamelCase "settings", .obj v.settings)]

def unstructure_UninstallRequest (v : UninstallRequest) : JValue :=
  .obj [(toCamelCase "lifecycle", .str v.lifecycle.value),
    (toCamelCase "execution_id", .str v.execution_id),
    (toCamelCase "locale", .str v.locale),
    (toCamelCase "version", .str v.version),
    (toCamelCase "uninstall_data", unstructure_UninstallData v.uninstall_data),
    (toCamelCase "settings", .obj v.settings)]

def unstructure_OauthCallbackRequest (v : OauthCallbackRequest) : JValue :=
  .obj [(toCamelCase "lifecycle", .str v.lifecycle.value),
    (toCamelCase "execution_id", .str v.execution_id),
    (toCamelCase "locale", .str v.locale),
    (toCamelCase "version", .str v.version),
    (toCamelCase "o_auth_callback_data", unstructure_OauthCallbackData v.o_auth_callback_data)]

def unstructure_EventRequest (v : EventRequest) : JValue :=
  .obj [(toCamelCase "lifecycle", .str v.lifecycle.value),
    (toCamelCase "execution_id", .str v.execution_id),
    (toCamelCase "locale", .str v.locale),
    (toCamelCase "version", .str v.version),
    (toCamelCase "event_data", unstructure_EventData v.event_data),
    (toCamelCase "settings", .obj v.settings)]

/-- Unstructuring a `LifecycleRequest` unstructures the concrete runtime
class; the discriminator is a normal field of the variant. -/
def unstructure_LifecycleRequest : LifecycleRequest → JValue
  | .configuration r => unstructure_ConfigurationRequest r
  | .confirmation r => unstructure_ConfirmationRequest r
  | .install r => unstructure_InstallRequest r
  | .update r => unstructure_UpdateRequest r
  | .uninstall r => unstructure_UninstallRequest r
  | .oauthCallback r => unstructure_OauthCallbackRequest r
  | .event r => unstructure_EventRequest r

def unstructure_ConfigInit (v : ConfigInit) : JValue :=
  .obj [(toCamelCase "id", .str v.id),
    (toCamelCase "name", .str v.name),
    (toCamelCase "description", .str v.description),
    (toCamelCase "permissions", unstructure_str_list v.permissions),
    (toCamelCase "first_page_id", .str v.first_page_id)]

def unstructure_ConfigInitData (v : ConfigInitData) : JValue :=
  .obj [(toCamelCase "initialize", unstructure_ConfigInit v.initialize')]

def unstructure_ConfigPage (v : ConfigPage) : JValue :=
  .obj [(toCamelCase "page_id", .str v.page_id),
    (toCamelCase "name", .str v.name),
    (toCamelCase "previous_page_id", unstructure_opt .str v.previous_page_id),
    (toCamelCase "next_page_id", unstructure_opt .str v.next_page_id),
    (toCamelCase "complete", .bool v.complete),
    (toCamelCase "sections", .arr (v.sections.map (fun s =>
      .obj [(toCamelCase "name", .str s.name),
        (toCamelCase "settings", .arr (s.settings.map unstructure_ConfigSetting))])))]

def unstructure_ConfigPageData (v : ConfigPageData) : JValue :=
  .obj [(toCamelCase "page", unstructure_ConfigPage v.page)]

/-- `CONVERTER.to_json(response)` at tree level, over all response classes. -/
def unstructure_LifecycleResponse : LifecycleResponse → JValue
  | .configurationInit r =>
    .obj [(toCamelCase "configuration_data", unstructure_ConfigInitData r.configuration_data)]
  | .configurationPage r =>
    .obj [(toCamelCase "configuration_data", unstructure_ConfigPageData r.configuration_data)]
  | .confirmation r => .obj [(toCamelCase "target_url", .str r.target_url)]
  | .install r => .obj [(toCamelCase "install_data", .obj r.install_data)]
  | .update r => .obj [(toCamelCase "update_data", .obj r.update_data)]
  | .uninstall r => .obj [(toCamelCase "uninstall_data", .obj r.uninstall_data)]
  | .oauthCallback r => .obj [(toCamelCase "o_auth_callback_data", .obj r.o_auth_callback_data)]
  | .event r => .obj [(toCamelCase "event_data", .obj r.event_data)]

/-! ### Marshaling, decode side

`make_dict_structure_fn` with the same renames: each field is read under its
camel-cased name; a field with an attrs default uses the default when the key
is missing; a required field with no default fails.  Nested failures propagate
(the registered union hooks below catch only the `KeyError` of their own two
lookups, as in `converter.py`). -/

/-- cattrs detailed validation (the default in the cattrs versions this
Python ≥3.11 code runs on): a structure function generated by
`make_dict_structure_fn` collects any exception raised while structuring the
class's fields into a `ClassValidationError` exception group — which is not a
`ValueError`.  Each generated per-class function below is therefore wrapped
with this combinator (the class name is the group's rendering); the
converter's own hooks (`_structure_request`, `_structure_config_value`,
`_structure_config_setting`, `_structure_datetime`) are plain registered
functions and do not wrap.  cattrs also wraps iterable elements in an
`IterableValidationError`; since every nested decode error already crosses a
generated class boundary, the class-level wrap captures the observable
behaviour (the escaping exception is an exception group). -/
def wrap_validation {α : Type} (cls : String) : Except PyExc α → Except PyExc α
  | .ok a => .ok a
  | .error e => .error (.classValidationError ("While structuring " ++ cls) e)

@[simp] theorem wrap_validation_ok {α : Type} (cls : String) (a : α) :
    wrap_validation cls (.ok a) = .ok a := rfl

def req_field (fs : List (String × JValue)) (k : String) : Except PyExc JValue :=
  match jlookup fs k with
  | some v => .ok v
  | none => .error (.otherError ("required field missing: " ++ k))

def as_str : JValue → Except PyExc String
  | .str s => .ok s
  | _ => .error (.otherError "expected a string")

def as_bool : JValue → Except PyExc Bool
  | .bool b => .ok b
  | _ => .error (.otherError "expected a bool")

def as_obj : JValue → Except PyExc (List (String × JValue))
  | .obj fs => .ok fs
  | _ => .error (.otherError "expected a mapping")

def as_arr : JValue → Except PyExc (List JValue)
  | .arr l => .ok l
  | _ => .error (.otherError "expected a list")

def as_str_list (v : JValue) : Except PyExc (List String) := do
  let items ← as_arr v
  items.mapM as_str

/-- `SmartAppConverter._structure_datetime` at tree level. -/
def _structure_datetime (now : Arrow) (v : JValue) : Except PyExc Arrow :=
  as_str v >>= fun s => deserialize_datetime s now

def req_str (fs : List (String × JValue)) (k : String) : Except PyExc String :=
  req_field fs k >>= as_str

def req_bool (fs : List (String × JValue)) (k : String) : Except PyExc Bool :=
  req_field fs k >>= as_bool

def req_str_list (fs : List (String × JValue)) (k : String) : Except PyExc (List String) :=
  req_field fs k >>= as_str_list

/-- Value part of an optional field whose attrs default is `None`: missing
key or `null` gives `none`. -/
def opt_of {α : Type} (o : Option JValue) (f : JValue → Except PyExc α) :
    Except PyExc (Option α) :=
  match o with
  | none => .ok none
  | some .null => .ok none
  | some v => (f v).map some

/-- An optional field whose attrs default is `None`. -/
def opt_field {α : Type} (fs : List (String × JValue)) (k : String)
    (f : JValue → Except PyExc α) : Except PyExc (Option α) :=
  opt_of (jlookup fs k) f

/-- Value part of a `dict[str, Any]` field whose attrs default is the empty
dict. -/
def dict_of (o : Option JValue) : Except PyExc (List (String × JValue)) :=
  match o with
  | none => .ok []
  | some v => as_obj v

/-- A `dict[str, Any]` field whose attrs default is the empty dict
(`settings`). -/
def opt_dict_field (fs : List (String × JValue)) (k : String) :
    Except PyExc (List (String × JValue)) :=
  dict_of (jlookup fs k)

/-- Value part of a `list[str]` field whose attrs default is the empty list. -/
def str_list_of (o : Option JValue) : Except PyExc (List String) :=
  match o with
  | none => .ok []
  | some v => as_str_list v

/-- A `list[str]` field whose attrs default is the empty list. -/
def opt_str_list_field (fs : List (String × JValue)) (k : String) :
    Except PyExc (List String) :=
  str_list_of (jlookup fs k)

/-- Value part of the `required: bool | None = False` field. -/
def required_of (o : Option JValue) : Except PyExc (Option Bool) :=
  match o with
  | none => .ok (some false)
  | some .null => .ok none
  | some v => (as_bool v).map some

/-- The `required: bool | None = False` field of `AbstractSetting`. -/
def required_field (fs : List (String × JValue)) : Except PyExc (Option Bool) :=
  required_of (jlookup fs (toCamelCase "required"))

/-- Value part of the `type: ConfigSettingType = ...` field (cattrs structures
the enum by value). -/
def setting_type_of (o : Option JValue) (dflt : ConfigSettingType) :
    Except PyExc ConfigSettingType :=
  match o with
  | none => .ok dflt
  | some v => do
    let s ← as_str v
    match ConfigSettingType.from_value s with
    | some t => .ok t
    | none => .error (.valueError (pyQuote s ++ " is not a valid ConfigSettingType"))

/-- The `type: ConfigSettingType = ...` field of a setting class. -/
def setting_type_field (fs : List (String × JValue)) (dflt : ConfigSettingType) :
    Except PyExc ConfigSettingType :=
  setting_type_of (jlookup fs (toCamelCase "type")) dflt

/-- Value part of the `value_type: ConfigValueType = ...` field. -/
def value_type_of (o : Option JValue) (dflt : ConfigValueType) :
    Except PyExc ConfigValueType :=
  match o with
  | none => .ok dflt
  | some v => do
    let s ← as_str v
    match ConfigValueType.from_value s with
    | some t => .ok t
    | none => .error (.valueError (pyQuote s ++ " is not a valid ConfigValueType"))

/-- The `value_type: ConfigValueType = ...` field of a config value class. -/
def value_type_field (fs : List (String × JValue)) (dflt : ConfigValueType) :
    Except PyExc ConfigValueType :=
  value_type_of (jlookup fs (toCamelCase "value_type")) dflt

/-- The required `lifecycle: LifecyclePhase` field of a request class. -/
def lifecycle_field (fs : List (String × JValue)) : Except PyExc LifecyclePhase := do
  let s ← req_str fs (toCamelCase "lifecycle")
  match LifecyclePhase.from_value s with
  | some p => .ok p
  | none => .error (.valueError (pyQuote s ++ " is not a valid LifecyclePhase"))

def structure_DeviceValue (j : JValue) : Except PyExc DeviceValue :=
  wrap_validation "DeviceValue" (do
    let fs ← as_obj j
    let device_id ← req_str fs (toCamelCase "device_id")
    let component_id ← req_str fs (toCamelCase "component_id")
    .ok ⟨device_id, component_id⟩)

def structure_DeviceConfigValue (j : JValue) : Except PyExc DeviceConfigValue :=
  wrap_validation "DeviceConfigValue" (do
    let fs ← as_obj j
    let device_config ← req_field fs (toCamelCase "device_config") >>= structure_DeviceValue
    let value_type ← value_type_field fs .DEVICE
    .ok ⟨device_config, value_type⟩)

def structure_StringValue (j : JValue) : Except PyExc StringValue :=
  wrap_validation "StringValue" (do
    let fs ← as_obj j
    let value ← req_str fs (toCamelCase "value")
    .ok ⟨value⟩)

def structure_StringConfigValue (j : JValue) : Except PyExc StringConfigValue :=
  wrap_validation "StringConfigValue" (do
    let fs ← as_obj j
    let string_config ← req_field fs (toCamelCase "string_config") >>= structure_StringValue
    let value_type ← value_type_field fs .STRING
    .ok ⟨string_config, value_type⟩)

/-- `SmartAppConverter._structure_config_value`: read `data["valueType"]`,
look it up in `ConfigValueType` by name, and structure against the concrete
class from `CONFIG_VALUE_BY_TYPE`; either `KeyError` becomes
`ValueError("Unknown config value type")`. -/
def _structure_config_value (j : JValue) : Except PyExc ConfigValue :=
  match j with
  | .obj fs =>
    match jlookup fs "valueType" with
    | some (.str s) =>
      match ConfigValueType.from_name s with
      | some .DEVICE => (structure_DeviceConfigValue (.obj fs)).map .device
      | some .STRING => (structure_StringConfigValue (.obj fs)).map .string
      | none => .error (.valueError "Unknown config value type")
    | some _ => .error (.valueError "Unknown config value type")
    | none => .error (.valueError "Unknown config value type")
  | _ => .error (.otherError "expected a mapping")

def structure_config_dict (j : JValue) : Except PyExc (List (String × List ConfigValue)) := do
  let fs ← as_obj j
  fs.mapM (fun kv => do
    let items ← as_arr kv.2
    let values ← items.mapM _structure_config_value
    .ok (kv.1, values))

def structure_InstalledApp (j : JValue) : Except PyExc InstalledApp :=
  wrap_validation "InstalledApp" (do
    let fs ← as_obj j
    let installed_app_id ← req_str fs (toCamelCase "installed_app_id")
    let location_id ← req_str fs (toCamelCase "location_id")
    let config ← req_field fs (toCamelCase "config") >>= structure_config_dict
    let permissions ← opt_str_list_field fs (toCamelCase "permissions")
    .ok ⟨installed_app_id, location_id, config, permissions⟩)

def structure_Event (now : Arrow) (j : JValue) : Except PyExc Event :=
  wrap_validation "Event" (do
    let fs ← as_obj j
    let event_time ← opt_field fs (toCamelCase "event_time") (_structure_datetime now)
    let event_type ← do
      let s ← req_str fs (toCamelCase "event_type")
      match EventType.from_value s with
      | some t => pure t
      | none => .error (.valueError (pyQuote s ++ " is not a valid EventType"))
    let device_event ← opt_field fs (toCamelCase "device_event") as_obj
    let device_lifecycle_event ← opt_field fs (toCamelCase "device_lifecycle_event") as_obj
    let device_health_event ← opt_field fs (toCamelCase "device_health_event") as_obj
    let device_commands_event ← opt_field fs (toCamelCase "device_commands_event") as_obj
    let mode_event ← opt_field fs (toCamelCase "mode_event") as_obj
    let timer_event ← opt_field fs (toCamelCase "timer_event") as_obj
    let scene_lifecycle_event ← opt_field fs (toCamelCase "scene_lifecycle_event") as_obj
    let security_arm_state_event ← opt_field fs (toCamelCase "security_arm_state_event") as_obj
    let hub_health_event ← opt_field fs (toCamelCase "hub_health_event") as_obj
    let installed_app_lifecycle_event ← opt_field fs (toCamelCase "installed_app_lifecycle_event") as_obj
    let weather_event ← opt_field fs (toCamelCase "weather_event") as_obj
    let weather_data ← opt_field fs (toCamelCase "weather_data") as_obj
    let air_quality_data ← opt_field fs (toCamelCase "air_quality_data") as_obj
    .ok ⟨event_time, event_type, device_event, device_lifecycle_event, device_health_event,
      device_commands_event, mode_event, timer_event, scene_lifecycle_event,
      security_arm_state_event, hub_health_event, installed_app_lifecycle_event,
      weather_event, weather_data, air_quality_data⟩)

def structure_ConfirmationData (j : JValue) : Except PyExc ConfirmationData :=
  wrap_validation "ConfirmationData" (do
    let fs ← as_obj j
    let app_id ← req_str fs (toCamelCase "app_id")
    let confirmation_url ← req_str fs (toCamelCase "confirmation_url")
    .ok ⟨app_id, confirmation_url⟩)

def structure_ConfigRequestData (j : JValue) : Except PyExc ConfigRequestData :=
  wrap_validation "ConfigRequestData" (do
    let fs ← as_obj j
    let installed_app_id ← req_str fs (toCamelCase "installed_app_id")
    let phase ← do
      let s ← req_str fs (toCamelCase "phase")
      match ConfigPhase.from_value s with
      | some p => pure p
      | none => .error (.valueError (pyQuote s ++ " is not a valid ConfigPhase"))
    let page_id ← req_str fs (toCamelCase "page_id")
    let previous_page_id ← req_str fs (toCamelCase "previous_page_id")
    let config ← req_field fs (toCamelCase "config") >>= structure_config_dict
    .ok ⟨installed_app_id, phase, page_id, previous_page_id, config⟩)

def structure_DeviceSetting (j : JValue) : Except PyExc DeviceSetting :=
  wrap_validation "DeviceSetting" (do
    let fs ← as_obj j
    let id ← req_str fs (toCamelCase "id")
    let name ← req_str fs (toCamelCase "name")
    let description ← req_str fs (toCamelCase "description")
    let required ← required_field fs
    let type ← setting_type_field fs .DEVICE
    let multiple ← req_bool fs (toCamelCase "multiple")
    let capabilities ← req_str_list fs (toCamelCase "capabilities")
    let permissions ← req_str_list fs (toCamelCase "permissions")
    .ok ⟨id, name, description, required, type, multiple, capabilities, permissions⟩)

def structure_TextSetting (j : JValue) : Except PyExc TextSetting :=
  wrap_validation "TextSetting" (do
    let fs ← as_obj j
    let id ← req_str fs (toCamelCase "id")
    let name ← req_str fs (toCamelCase "name")
    let description ← req_str fs (toCamelCase "description")
    let required ← required_field fs
    let type ← setting_type_field fs .TEXT
    let default_value ← req_str fs (toCamelCase "default_value")
    .ok ⟨id, name, description, required, type, default_value⟩)

def structure_BooleanSetting (j : JValue) : Except PyExc BooleanSetting :=
  wrap_validation "BooleanSetting" (do
    let fs ← as_obj j
    let id ← req_str fs (toCamelCase "id")
    let name ← req_str fs (toCamelCase "name")
    let description ← req_str fs (toCamelCase "description")
    let required ← required_field fs
    let type ← setting_type_field fs .BOOLEAN
    let default_value ← do
      let s ← req_str fs (toCamelCase "default_value")
      match BooleanValue.from_value s with
      | some b => pure b
      | none => .error (.valueError (pyQuote s ++ " is not a valid BooleanValue"))
    .ok ⟨id, name, description, required, type, default_value⟩)

def structure_EnumOption (j : JValue) : Except PyExc EnumOption :=
  wrap_validation "EnumOption" (do
    let fs ← as_obj j
    let id ← req_str fs (toCamelCase "id")
    let name ← req_str fs (toCamelCase "name")
    .ok ⟨id, name⟩)

def structure_EnumOptionGroup (j : JValue) : Except PyExc EnumOptionGroup :=
  wrap_validation "EnumOptionGroup" (do
    let fs ← as_obj j
    let name ← req_str fs (toCamelCase "name")
    let options ← req_field fs (toCamelCase "options") >>= as_arr >>=
      fun items => items.mapM structure_EnumOption
    .ok ⟨name, options⟩)

/-- Decoded options list of an `EnumSetting`. -/
def structure_enum_options (v : JValue) : Except PyExc (List EnumOption) :=
  as_arr v >>= fun items => items.mapM structure_EnumOption

/-- Decoded grouped options list of an `EnumSetting`. -/
def structure_enum_option_groups (v : JValue) : Except PyExc (List EnumOptionGroup) :=
  as_arr v >>= fun items => items.mapM structure_EnumOptionGroup

def structure_EnumSetting (j : JValue) : Except PyExc EnumSetting :=
  wrap_validation "EnumSetting" (do
    let fs ← as_obj j
    let id ← req_str fs (toCamelCase "id")
    let name ← req_str fs (toCamelCase "name")
    let description ← req_str fs (toCamelCase "description")
    let required ← required_field fs
    let type ← setting_type_field fs .ENUM
    let multiple ← req_bool fs (toCamelCase "multiple")
    let options ← opt_field fs (toCamelCase "options") structure_enum_options
    let grouped_options ← opt_field fs (toCamelCase "grouped_options") structure_enum_option_groups
    .ok ⟨id, name, description, required, type, multiple, options, grouped_options⟩)

def structure_LinkSetting (j : JValue) : Except PyExc LinkSetting :=
  wrap_validation "LinkSetting" (do
    let fs ← as_obj j
    let id ← req_str fs (toCamelCase "id")
    let name ← req_str fs (toCamelCase "name")
    let description ← req_str fs (toCamelCase "description")
    let required ← required_field fs
    let type ← setting_type_field fs .LINK
    let url ← req_str fs (toCamelCase "url")
    let image ← req_str fs (toCamelCase "image")
    .ok ⟨id, name, description, required, type, url, image⟩)

def structure_PageSetting (j : JValue) : Except PyExc PageSetting :=
  wrap_validation "PageSetting" (do
    let fs ← as_obj j
    let id ← req_str fs (toCamelCase "id")
    let name ← req_str fs (toCamelCase "name")
    let description ← req_str fs (toCamelCase "description")
    let required ← required_field fs
    let type ← setting_type_field fs .PAGE
    let page ← req_str fs (toCamelCase "page")
    let image ← req_str fs (toCamelCase "image")
    .ok ⟨id, name, description, required, type, page, image⟩)

def structure_ImageSetting (j : JValue) : Except PyExc ImageSetting :=
  wrap_validation "ImageSetting" (do
    let fs ← as_obj j
    let id ← req_str fs (toCamelCase "id")
    let name ← req_str fs (toCamelCase "name")
    let description ← req_str fs (toCamelCase "description")
    let required ← required_field fs
    let type ← setting_type_field fs .IMAGE
    let image ← req_str fs (toCamelCase "image")
    .ok ⟨id, name, description, required, type, image⟩)

def structure_IconSetting (j : JValue) : Except PyExc IconSetting :=
  wrap_validation "IconSetting" (do
    let fs ← as_obj j
    let id ← req_str fs (toCamelCase "id")
    let name ← req_str fs (toCamelCase "name")
    let description ← req_str fs (toCamelCase "description")
    let required ← required_field fs
    let type ← setting_type_field fs .ICON
    let image ← req_str fs (toCamelCase "image")
    .ok ⟨id, name, description, required, type, image⟩)

def structure_TimeSetting (j : JValue) : Except PyExc TimeSetting :=
  wrap_validation "TimeSetting" (do
    let fs ← as_obj j
    let id ← req_str fs (toCamelCase "id")
    let name ← req_str fs (toCamelCase "name")
    let description ← req_str fs (toCamelCase "description")
    let required ← required_field fs
    let type ← setting_type_field fs .TIME
    .ok ⟨id, name, description, required, type⟩)

def structure_ParagraphSetting (j : JValue) : Except PyExc ParagraphSetting :=
  wrap_validation "ParagraphSetting" (do
    let fs ← as_obj j
    let id ← req_str fs (toCamelCase "id")
    let name ← req_str fs (toCamelCase "name")
    let description ← req_str fs (toCamelCase "description")
    let required ← required_field fs
    let type ← setting_type_field fs .PARAGRAPH
    let default_value ← req_str fs (toCamelCase "default_value")
    .ok ⟨id, name, description, required, type, default_value⟩)

def structure_EmailSetting (j : JValue) : Except PyExc EmailSetting :=
  wrap_validation "EmailSetting" (do
    let fs ← as_obj j
    let id ← req_str fs (toCamelCase "id")
    let name ← req_str fs (toCamelCase "name")
    let description ← req_str fs (toCamelCase "description")
    let required ← required_field fs
    let type ← setting_type_field fs .EMAIL
    .ok ⟨id, name, description, required, type⟩)

def structure_DecimalSetting (j : JValue) : Except PyExc DecimalSetting :=
  wrap_validation "DecimalSetting" (do
    let fs ← as_obj j
    let id ← req_str fs (toCamelCase "id")
    let name ← req_str fs (toCamelCase "name")
    let description ← req_str fs (toCamelCase "description")
    let required ← required_field fs
    let type ← setting_type_field fs .DECIMAL
    .ok ⟨id, name, description, required, type⟩)

def structure_NumberSetting (j : JValue) : Except PyExc NumberSetting :=
  wrap_validation "NumberSetting" (do
    let fs ← as_obj j
    let id ← req_str fs (toCamelCase "id")
    let name ← req_str fs (toCamelCase "name")
    let description ← req_str fs (toCamelCase "description")
    let required ← required_field fs
    let type ← setting_type_field fs .NUMBER
    .ok ⟨id, name, description, required, type⟩)

def structure_PhoneSetting (j : JValue) : Except PyExc PhoneSetting :=
  wrap_validation "PhoneSetting" (do
    let fs ← as_obj j
    let id ← req_str fs (toCamelCase "id")
    let name ← req_str fs (toCamelCase "name")
    let description ← req_str fs (toCamelCase "description")
    let required ← required_field fs
    let type ← setting_type_field fs .PHONE
    .ok ⟨id, name, description, required, type⟩)

def structure_OauthSetting (j : JValue) : Except PyExc OauthSetting :=
  wrap_validation "OauthSetting" (do
    let fs ← as_obj j
    let id ← req_str fs (toCamelCase "id")
    let name ← req_str fs (toCamelCase "name")
    let description ← req_str fs (toCamelCase "description")
    let required ← required_field fs
    let type ← setting_type_field fs .OAUTH
    let browser ← req_bool fs (toCamelCase "browser")
    let url_template ← req_str fs (toCamelCase "url_template")
    .ok ⟨id, name, description, required, type, browser, url_template⟩)

/-- `SmartAppConverter._structure_config_setting`: read `data["type"]`, look
it up in `ConfigSettingType` by name, structure against the class from
`CONFIG_SETTING_BY_TYPE`; either `KeyError` becomes
`ValueError("Unknown config setting type")`. -/
def _structure_config_setting (j : JValue) : Except PyExc ConfigSetting :=
  match j with
  | .obj fs =>
    match jlookup fs "type" with
    | some (.str s) =>
      match ConfigSettingType.from_name s with
      | some .DEVICE => (structure_DeviceSetting (.obj fs)).map .device
      | some .TEXT => (structure_TextSetting (.obj fs)).map .text
      | some .BOOLEAN => (structure_BooleanSetting (.obj fs)).map .boolean
      | some .ENUM => (structure_EnumSetting (.obj fs)).map .enum
      | some .LINK => (structure_LinkSetting (.obj fs)).map .link
      | some .PAGE => (structure_PageSetting (.obj fs)).map .page
      | some .IMAGE => (structure_ImageSetting (.obj fs)).map .image
      | some .ICON => (structure_IconSetting (.obj fs)).map .icon
      | some .TIME => (structure_TimeSetting (.obj fs)).map .time
      | some .PARAGRAPH => (structure_ParagraphSetting (.obj fs)).map .paragraph
      | some .EMAIL => (structure_EmailSetting (.obj fs)).map .email
      | some .DECIMAL => (structure_DecimalSetting (.obj fs)).map .decimal
      | some .NUMBER => (structure_NumberSetting (.obj fs)).map .number
      | some .PHONE => (structure_PhoneSetting (.obj fs)).map .phone
      | some .OAUTH => (structure_OauthSetting (.obj fs)).map .oauth
      | none => .error (.valueError "Unknown config setting type")
    | some _ => .error (.valueError "Unknown config setting type")
    | none => .error (.valueError "Unknown config setting type")
  | _ => .error (.otherError "expected a mapping")

def structure_InstallData (j : JValue) : Except PyExc InstallData :=
  wrap_validation "InstallData" (do
    let fs ← as_obj j
    let auth_token ← req_str fs (toCamelCase "auth_token")
    let refresh_token ← req_str fs (toCamelCase "refresh_token")
    let installed_app ← req_field fs (toCamelCase "installed_app") >>= structure_InstalledApp
    .ok ⟨auth_token, refresh_token, installed_app⟩)

def structure_UpdateData (j : JValue) : Except PyExc UpdateData :=
  wrap_validation "UpdateData" (do
    let fs ← as_obj j
    let auth_token ← req_str fs (toCamelCase "auth_token")
    let refresh_token ← req_str fs (toCamelCase "refresh_token")
    let installed_app ← req_field fs (toCamelCase "installed_app") >>= structure_InstalledApp
    let previous_config ← opt_field fs (toCamelCase "previous_config") structure_config_dict
    let previous_permissions ← opt_str_list_field fs (toCamelCase "previous_permissions")
    .ok ⟨auth_token, refresh_token, installed_app, previous_config, previous_permissions⟩)

def structure_UninstallData (j : JValue) : Except PyExc UninstallData :=
  wrap_validation "UninstallData" (do
    let fs ← as_obj j
    let installed_app ← req_field fs (toCamelCase "installed_app") >>= structure_InstalledApp
    .ok ⟨installed_app⟩)

def structure_OauthCallbackData (j : JValue) : Except PyExc OauthCallbackData :=
  wrap_validation "OauthCallbackData" (do
    let fs ← as_obj j
    let installed_app_id ← req_str fs (toCamelCase "installed_app_id")
    let url_path ← req_str fs (toCamelCase "url_path")
    .ok ⟨installed_app_id, url_path⟩)

def structure_EventData (now : Arrow) (j : JValue) : Except PyExc EventData :=
  wrap_validation "EventData" (do
    let fs ← as_obj j
    let auth_token ← req_str fs (toCamelCase "auth_token")
    let installed_app ← req_field fs (toCamelCase "installed_app") >>= structure_InstalledApp
    let events ← req_field fs (toCamelCase "events") >>= as_arr >>=
      fun items => items.mapM (structure_Event now)
    .ok ⟨auth_token, installed_app, events⟩)

def structure_ConfirmationRequest (j : JValue) : Except PyExc ConfirmationRequest :=
  wrap_validation "ConfirmationRequest" (do
    let fs ← as_obj j
    let lifecycle ← lifecycle_field fs
    let execution_id ← req_str fs (toCamelCase "execution_id")
    let locale ← req_str fs (toCamelCase "locale")
    let version ← req_str fs (toCamelCase "version")
    let app_id ← req_str fs (toCamelCase "app_id")
    let confirmation_data ← req_field fs (toCamelCase "confirmation_data") >>= structure_ConfirmationData
    let settings ← opt_dict_field fs (toCamelCase "settings")
    .ok ⟨lifecycle, execution_id, locale, version, app_id, confirmation_data, settings⟩)

def structure_ConfigurationRequest (j : JValue) : Except PyExc ConfigurationRequest :=
  wrap_validation "ConfigurationRequest" (do
    let fs ← as_obj j
    let lifecycle ← lifecycle_field fs
    let execution_id ← req_str fs (toCamelCase "execution_id")
    let locale ← req_str fs (toCamelCase "locale")
    let version ← req_str fs (toCamelCase "version")
    let configuration_data ← req_field fs (toCamelCase "configuration_data") >>= structure_ConfigRequestData
    let settings ← opt_dict_field fs (toCamelCase "settings")
    .ok ⟨lifecycle, execution_id, locale, version, configuration_data, settings⟩)

def structure_InstallRequest (j : JValue) : Except PyExc InstallRequest :=
  wrap_validation "InstallRequest" (do
    let fs ← as_obj j
    let lifecycle ← lifecycle_field fs
    let execution_id ← req_str fs (toCamelCase "execution_id")
    let locale ← req_str fs (toCamelCase "locale")
    let version ← req_str fs (toCamelCase "version")
    let install_data ← req_field fs (toCamelCase "install_data") >>= structure_InstallData
    let settings ← opt_dict_field fs (toCamelCase "settings")
    .ok ⟨lifecycle, execution_id, locale, version, install_data, settings⟩)

def structure_UpdateRequest (j : JValue) : Except PyExc UpdateRequest :=
  wrap_validation "UpdateRequest" (do
    let fs ← as_obj j
    let lifecycle ← lifecycle_field fs
    let execution_id ← req_str fs (toCamelCase "execution_id")
    let locale ← req_str fs (toCamelCase "locale")
    let version ← req_str fs (toCamelCase "version")
    let update_data ← req_field fs (toCamelCase "update_data") >>= structure_UpdateData
    let settings ← opt_dict_field fs (toCamelCase "settings")
    .ok ⟨lifecycle, execution_id, locale, version, update_data, settings⟩)

def structure_UninstallRequest (j : JValue) : Except PyExc UninstallRequest :=
  wrap_validation "UninstallRequest" (do
    let fs ← as_obj j
    let lifecycle ← lifecycle_field fs
    let execution_id ← req_str fs (toCamelCase "execution_id")
    let locale ← req_str fs (toCamelCase "locale")
    let version ← req_str fs (toCamelCase "version")
    let uninstall_data ← req_field fs (toCamelCase "uninstall_data") >>= structure_UninstallData
    let settings ← opt_dict_field fs (toCamelCase "settings")
    .ok ⟨lifecycle, execution_id, locale, version, uninstall_data, settings⟩)

def structure_OauthCallbackRequest (j : JValue) : Except PyExc OauthCallbackRequest :=
  wrap_validation "OauthCallbackRequest" (do
    let fs ← as_obj j
    let lifecycle ← lifecycle_field fs
    let execution_id ← req_str fs (toCamelCase "execution_id")
    let locale ← req_str fs (toCamelCase "locale")
    let version ← req_str fs (toCamelCase "version")
    let o_auth_callback_data ← req_field fs (toCamelCase "o_auth_callback_data") >>= structure_OauthCallbackData
    .ok ⟨lifecycle, execution_id, locale, version, o_auth_callback_data⟩)

def structure_EventRequest (now : Arrow) (j : JValue) : Except PyExc EventRequest :=
  wrap_validation "EventRequest" (do
    let fs ← as_obj j
    let lifecycle ← lifecycle_field fs
    let execution_id ← req_str fs (toCamelCase "execution_id")
    let locale ← req_str fs (toCamelCase "locale")
    let version ← req_str fs (toCamelCase "version")
    let event_data ← req_field fs (toCamelCase "event_data") >>= structure_EventData now
    let settings ← opt_dict_field fs (toCamelCase "settings")
    .ok ⟨lifecycle, execution_id, locale, version, event_data, settings⟩)

/-- `SmartAppConverter._structure_request`: read `data["lifecycle"]`, look it
up in `LifecyclePhase` by name, and structure against the concrete class from
`REQUEST_BY_PHASE`; either `KeyError` becomes
`ValueError("Unknown lifecycle phase")`. -/
def _structure_request (now : Arrow) (j : JValue) : Except PyExc LifecycleRequest :=
  match j with
  | .obj fs =>
    match jlookup fs "lifecycle" with
    | some (.str s) =>
      match LifecyclePhase.from_name s with
      | some .CONFIGURATION => (structure_ConfigurationRequest (.obj fs)).map .configuration
      | some .CONFIRMATION => (structure_ConfirmationRequest (.obj fs)).map .confirmation
      | some .INSTALL => (structure_InstallRequest (.obj fs)).map .install
      | some .UPDATE => (structure_UpdateRequest (.obj fs)).map .update
      | some .UNINSTALL => (structure_UninstallRequest (.obj fs)).map .uninstall
      | some .OAUTH_CALLBACK => (structure_OauthCallbackRequest (.obj fs)).map .oauthCallback
      | some .EVENT => (structure_EventRequest now (.obj fs)).map .event
      | none => .error (.valueError "Unknown lifecycle phase")
    | some _ => .error (.valueError "Unknown lifecycle phase")
    | none => .error (.valueError "Unknown lifecycle phase")
  | _ => .error (.otherError "expected a mapping")

/-! ### The dispatcher (`dispatcher.py`) -/

/-- A raised `SmartAppError` as the caller of `dispatch` observes it. -/
structure AppError where
  kind : ErrKind
  message : String
  correlation_id : Option String
deriving DecidableEq, Repr

/-- The `except` ladder at the bottom of `SmartAppDispatcher.dispatch`:
a `SmartAppError` is re-raised as-is; `JSONDecodeError` becomes
`BadRequestError("Invalid JSON")`; any other `ValueError` becomes
`BadRequestError(str(e))`; everything else — including a cattrs
`ClassValidationError`, which is an `ExceptionGroup` and so falls through to
the broad `except Exception` clause — becomes `InternalError(str(e))`;
the latter three carry the context's correlation id. -/
def map_exception (e : PyExc) (cid : Option String) : AppError :=
  match e with
  | .smartAppError k m c => ⟨k, m, c⟩
  | .jsonDecodeError _ => ⟨.badRequest, "Invalid JSON", cid⟩
  | .valueError m => ⟨.badRequest, m, cid⟩
  | .keyError m => ⟨.internal, m, cid⟩
  | .classValidationError m _ => ⟨.internal, m, cid⟩
  | .otherError m => ⟨.internal, m, cid⟩

/-- An application event handler: per request it either returns normally
(`none`) or raises (`some e`).  Its return value is otherwise ignored by the
dispatcher. -/
abbrev SmartAppEventHandler : Type :=
  Option String → LifecycleRequest → Option PyExc

/-- `SmartAppConfigManager.build_init_response`. -/
def build_init_response (id name description : String) (permissions : List String)
    (first_page_id : Int) : ConfigurationInitResponse :=
  ⟨⟨⟨id, name, description, permissions, toString first_page_id⟩⟩⟩

/-- `str(x) if x else None` on an optional page number: Python truthiness
collapses both `None` and `0` to `None`. -/
def str_if_truthy : Option Int → Option String
  | none => none
  | some n => if n = 0 then none else some (toString n)

/-- `SmartAppConfigManager.build_page_response`. -/
def build_page_response (page_id : Int) (name : String)
    (previous_page_id next_page_id : Option Int) (complete : Bool)
    (sections : List ConfigSection) : ConfigurationPageResponse :=
  ⟨⟨⟨toString page_id, name, str_if_truthy previous_page_id, str_if_truthy next_page_id,
    complete, sections⟩⟩⟩

/-- `SmartAppConfigManager.handle_initialize`: build the INITIALIZE response
from the static definition, first page 1. -/
def handle_init (defn : SmartAppDefinition) : ConfigurationInitResponse :=
  build_init_response defn.id defn.name defn.description defn.permissions 1

/-- `StaticConfigManager.handle_page`: raise if there are no configured pages;
compute previous/next/complete from the 1-based `page_id`; then subscript the
page list at `page_id - 1` (Python list indexing), an `IndexError` becoming
`ValueError("Page not found: %d")`. -/
def handle_page (defn : SmartAppDefinition) (page_id : Int) :
    Except PyExc ConfigurationPageResponse :=
  match defn.config_pages with
  | none => .error (.valueError "Static configuration manager requires at least one configured page.")
  | some pages =>
    match pages with
    | [] => .error (.valueError "Static configuration manager requires at least one configured page.")
    | _ :: _ =>
      let previous_page_id : Option Int := if page_id = 1 then none else some (page_id - 1)
      let next_page_id : Option Int :=
        if page_id ≥ (pages.length : Int) then none else some (page_id + 1)
      let complete : Bool := page_id ≥ (pages.length : Int)
      match pyIndex pages (page_id - 1) with
      | some page =>
        .ok (build_page_response page_id page.page_name previous_page_id next_page_id
          complete page.sections)
      | none => .error (.valueError ("Page not found: " ++ toString page_id))

/-- `SmartAppDispatcher._handle_config_request`: INITIALIZE builds the init
response; any other sub-phase parses `page_id` with `int()` (an invalid
literal raising `ValueError`) and delegates to `handle_page`. -/
def handle_config_request (defn : SmartAppDefinition) (r : ConfigurationRequest) :
    Except PyExc LifecycleResponse :=
  if r.configuration_data.phase = ConfigPhase.INIT then
    .ok (.configurationInit (handle_init defn))
  else
    match pyInt r.configuration_data.page_id with
    | none => .error (.valueError ("invalid literal for int() with base 10: " ++
        pyQuote r.configuration_data.page_id))
    | some page_id => (handle_page defn page_id).map .configurationPage

/-- `SmartAppDispatcher._handle_request`: invoke the phase's handler callback
first (a raised error aborts), then build the phase's response. -/
def handle_request (defn : SmartAppDefinition) (handler : SmartAppEventHandler)
    (cid : Option String) (req : LifecycleRequest) : Except PyExc LifecycleResponse :=
  match handler cid req with
  | some e => .error e
  | none =>
    match req with
    | .confirmation _ => .ok (.confirmation ⟨defn.target_url⟩)
    | .configuration r => handle_config_request defn r
    | .install _ => .ok (.install ⟨[]⟩)
    | .update _ => .ok (.update ⟨[]⟩)
    | .uninstall _ => .ok (.uninstall ⟨[]⟩)
    | .oauthCallback _ => .ok (.oauthCallback ⟨[]⟩)
    | .event _ => .ok (.event ⟨[]⟩)

/-- The observable steps of one `dispatch` call, in order: the request was
decoded; the `SignatureVerifier` was invoked; routing (`_handle_request`) was
invoked; the response was encoded. -/
inductive DispatchStep where
  | decoded | verified | routed | responded
deriving DecidableEq, Repr

/-- Routing and response encoding, after decode and (possibly skipped)
verification; `t` is the trace so far. -/
def dispatch_route (defn : SmartAppDefinition) (handler : SmartAppEventHandler)
    (cid : Option String) (req : LifecycleRequest) (t : List DispatchStep) :
    List DispatchStep × Except AppError JValue :=
  match handle_request defn handler cid req with
  | .error e => (t ++ [.routed], .error (map_exception e cid))
  | .ok resp => (t ++ [.routed, .responded], .ok (unstructure_LifecycleResponse resp))

/-- `SmartAppDispatcher.dispatch`: decode the body with the converter, verify
the signature only when `check_signatures` is set (the verifier outcome is the
`verifier` argument: `none` means `verify()` returned, `some e` that it
raised), route, encode, and map any raised exception through `map_exception`.
`now` is the current instant (used by the timestamp codec).  The first
component is the trace of observable steps. -/
def dispatch (cfg : SmartAppDispatcherConfig) (defn : SmartAppDefinition)
    (handler : SmartAppEventHandler) (verifier : Option PyExc) (now : Arrow)
    (ctx : SmartAppRequestContext) : List DispatchStep × Except AppError JValue :=
  let cid := ctx.correlation_id
  match ctx.body with
  | .malformed m => ([], .error (map_exception (.jsonDecodeError m) cid))
  | .parsed j =>
    match _structure_request now j with
    | .error e => ([], .error (map_exception e cid))
    | .ok req =>
      if cfg.check_signatures then
        match verifier with
        | some e => ([.decoded, .verified], .error (map_exception e cid))
        | none => dispatch_route defn handler cid req [.decoded, .verified]
      else dispatch_route defn handler cid req [.decoded]

/-! ### Inversion lemmas for the timestamp codec -/

theorem charToDigit_digitChar : ∀ d : Nat, d < 10 → charToDigit (Nat.digitChar d) = some d := by
  decide

theorem parse2c_digits (n : Nat) :
    parse2c (Nat.digitChar (n / 10 % 10)) (Nat.digitChar (n % 10)) = some (n / 10 % 10 * 10 + n % 10) := by
  rw [parse2c, charToDigit_digitChar _ (by omega), charToDigit_digitChar _ (by omega)]
  rfl

theorem parse3c_digits (n : Nat) :
    parse3c (Nat.digitChar (n / 100 % 10)) (Nat.digitChar (n / 10 % 10)) (Nat.digitChar (n % 10)) =
      some (n / 100 % 10 * 100 + n / 10 % 10 * 10 + n % 10) := by
  rw [parse3c, charToDigit_digitChar _ (by omega), charToDigit_digitChar _ (by omega),
    charToDigit_digitChar _ (by omega)]
  rfl

theorem parse4c_digits (n : Nat) :
    parse4c (Nat.digitChar (n / 1000 % 10)) (Nat.digitChar (n / 100 % 10))
      (Nat.digitChar (n / 10 % 10)) (Nat.digitChar (n % 10)) =
      some (n / 1000 % 10 * 1000 + n / 100 % 10 * 100 + n / 10 % 10 * 10 + n % 10) := by
  rw [parse4c, charToDigit_digitChar _ (by omega), charToDigit_digitChar _ (by omega),
    charToDigit_digitChar _ (by omega), charToDigit_digitChar _ (by omega)]
  rfl

/-- Parsing inverts serialization for any `datetime`-valid instant with whole
milliseconds. -/
theorem parseMs_serializeL (a : Arrow) (h : a.valid) (hms : a.microsecond % 1000 = 0) :
    parseMsL (serializeL a) = some a := by
  obtain ⟨h1, h2, h3, h4, h5, h6, h7, h8, h9, h10⟩ := h
  show parseMsL (digits4 a.year ++ '-' :: digits2 a.month ++ '-' :: digits2 a.day ++
    'T' :: digits2 a.hour ++ ':' :: digits2 a.minute ++ ':' :: digits2 a.second ++
    '.' :: digits3 (a.microsecond / 1000) ++ ['Z']) = some a
  simp only [digits4, digits2, digits3, List.cons_append, List.nil_append, parseMsL]
  simp only [parse4c_digits, parse2c_digits, parse3c_digits]
  have ey : a.year / 1000 % 10 * 1000 + a.year / 100 % 10 * 100 + a.year / 10 % 10 * 10 +
      a.year % 10 = a.year := by omega
  have emo : a.month / 10 % 10 * 10 + a.month % 10 = a.month := by omega
  have ed : a.day / 10 % 10 * 10 + a.day % 10 = a.day := by omega
  have eh : a.hour / 10 % 10 * 10 + a.hour % 10 = a.hour := by omega
  have emi : a.minute / 10 % 10 * 10 + a.minute % 10 = a.minute := by omega
  have es : a.second / 10 % 10 * 10 + a.second % 10 = a.second := by omega
  have ems : a.microsecond / 1000 / 100 % 10 * 100 + a.microsecond / 1000 / 10 % 10 * 10 +
      a.microsecond / 1000 % 10 = a.microsecond / 1000 := by omega
  have emu : a.microsecond / 1000 * 1000 = a.microsecond := by omega
  simp only [ey, emo, ed, eh, emi, es, ems]
  simp [emu]

/-- The instant both epoch sentinels denote. -/
def epochArrow : Arrow := ⟨1970, 1, 1, 0, 0, 0, 0⟩

/-- An instant that survives the wire round trip: `datetime`-valid, whole
milliseconds, and not the epoch (whose serialization is the sentinel that
decodes to "now"). -/
abbrev Arrow.roundtrippable (a : Arrow) : Prop :=
  a.valid ∧ a.microsecond % 1000 = 0 ∧ a ≠ epochArrow

theorem serialize_datetime_length (a : Arrow) : (serialize_datetime a).length = 24 := rfl

theorem parseMs_serialize (a : Arrow) (h : a.valid) (hms : a.microsecond % 1000 = 0) :
    parseMs (serialize_datetime a) = some a :=
  parseMs_serializeL a h hms

theorem deserialize_serialize (a now : Arrow) (h : a.roundtrippable) :
    deserialize_datetime (serialize_datetime a) now = .ok a := by
  obtain ⟨hv, hms, hne⟩ := h
  have hp : parseMs (serialize_datetime a) = some a := parseMs_serialize a hv hms
  have hmsne : serialize_datetime a ≠ DATETIME_MS_EPOCH := by
    intro he
    have h2 : parseMs DATETIME_MS_EPOCH = some a := he ▸ hp
    have h3 : parseMs DATETIME_MS_EPOCH = some epochArrow := by decide
    exact hne (Option.some.inj (h3.symm.trans h2)).symm
  have hsecne : serialize_datetime a ≠ DATETIME_SEC_EPOCH := by
    intro he
    have h2 := congrArg String.length he
    rw [serialize_datetime_length a] at h2
    exact absurd h2 (by decide)
  rw [deserialize_datetime, if_neg (by exact not_or.mpr ⟨hmsne, hsecne⟩),
    if_pos (show (serialize_datetime a).length = DATETIME_MS_LEN from serialize_datetime_length a),
    arrowGetMs, hp]

/-- C4: timestamp decoding follows the priority order: epoch sentinel (either
literal) decodes to the current instant; otherwise a 24-character string is
parsed at millisecond precision in UTC; otherwise a 20-character string is
parsed at second precision in UTC; otherwise decoding fails with the
"unknown datetime format" error.  The final conjunct shows the sentinel
branch genuinely preempts the second-precision parse (which would yield the
epoch, not "now"). -/
theorem c4_deserialize_datetime_priority (s : String) (now : Arrow) :
    (deserialize_datetime DATETIME_MS_EPOCH now = .ok now) ∧
    (deserialize_datetime DATETIME_SEC_EPOCH now = .ok now) ∧
    (s ≠ DATETIME_MS_EPOCH → s ≠ DATETIME_SEC_EPOCH → s.length = 24 →
      deserialize_datetime s now = arrowGetMs s) ∧
    (s ≠ DATETIME_MS_EPOCH → s ≠ DATETIME_SEC_EPOCH → s.length ≠ 24 → s.length = 20 →
      deserialize_datetime s now = arrowGetSec s) ∧
    (s ≠ DATETIME_MS_EPOCH → s ≠ DATETIME_SEC_EPOCH → s.length ≠ 24 → s.length ≠ 20 →
      deserialize_datetime s now = .error (.valueError ("Unknown datetime format: " ++ s))) ∧
    (arrowGetSec DATETIME_SEC_EPOCH = .ok epochArrow) := by
  refine ⟨rfl, rfl, ?_, ?_, ?_, rfl⟩
  · intro h1 h2 h3
    rw [deserialize_datetime, if_neg (by exact not_or.mpr ⟨h1, h2⟩),
      if_pos (show s.length = DATETIME_MS_LEN from h3)]
  · intro h1 h2 h3 h4
    rw [deserialize_datetime, if_neg (by exact not_or.mpr ⟨h1, h2⟩),
      if_neg (show ¬s.length = DATETIME_MS_LEN from h3),
      if_pos (show s.length = DATETIME_SEC_LEN from h4)]
  · intro h1 h2 h3 h4
    rw [deserialize_datetime, if_neg (by exact not_or.mpr ⟨h1, h2⟩),
      if_neg (show ¬s.length = DATETIME_MS_LEN from h3),
      if_neg (show ¬s.length = DATETIME_SEC_LEN from h4)]

/-- Witness for C4 at concrete inputs: a 20-character non-sentinel string
takes the second-precision branch, and its parse is the expected instant. -/
theorem c4_deserialize_datetime_priority_witness :
    deserialize_datetime "2017-09-13T04:18:12Z" epochArrow = arrowGetSec "2017-09-13T04:18:12Z" ∧
    arrowGetSec "2017-09-13T04:18:12Z" = .ok ⟨2017, 9, 13, 4, 18, 12, 0⟩ :=
  ⟨(c4_deserialize_datetime_priority "2017-09-13T04:18:12Z" epochArrow).2.2.2.1
      (by decide) (by decide) (by decide) (by decide),
    rfl⟩

/-! ### Round-trip lemmas -/

/-- Decoding a list inverts encoding it, elementwise. -/
theorem list_mapM_rt_cond {α β : Type} {f : α → β} {g : β → Except PyExc α}
    (l : List α) (h : ∀ a ∈ l, g (f a) = .ok a) : (l.map f).mapM g = .ok l := by
  induction l with
  | nil => rfl
  | cons x xs ih =>
    simp only [List.map_cons, List.mapM_cons, h x (by simp), ih (fun a ha => h a (by simp [ha]))]
    rfl

/-- `list_mapM_rt_cond` for the accumulator form `List.mapM.loop`. -/
theorem list_mapM_loop_rt {α β : Type} {f : α → β} {g : β → Except PyExc α}
    (l acc : List α) (h : ∀ a ∈ l, g (f a) = .ok a) :
    List.mapM.loop g (l.map f) acc = .ok (acc.reverse ++ l) := by
  induction l generalizing acc with
  | nil => simp [List.mapM.loop]; rfl
  | cons x xs ih =>
    simp only [List.map_cons, List.mapM.loop, h x (by simp), bind, Except.bind]
    rw [ih (x :: acc) (fun a ha => h a (by simp [ha]))]
    simp

theorem list_mapM_loop_rt0 {α β : Type} {f : α → β} {g : β → Except PyExc α}
    (l : List α) (h : ∀ a ∈ l, g (f a) = .ok a) :
    List.mapM.loop g (l.map f) [] = .ok l := by
  simpa using list_mapM_loop_rt l [] h

@[simp] theorem lifecyclePhase_from_value_value (p : LifecyclePhase) :
    LifecyclePhase.from_value p.value = some p := by cases p <;> rfl

@[simp] theorem configPhase_from_value_value (p : ConfigPhase) :
    ConfigPhase.from_value p.value = some p := by cases p <;> rfl

@[simp] theorem configValueType_from_value_value (t : ConfigValueType) :
    ConfigValueType.from_value t.value = some t := by cases t <;> rfl

@[simp] theorem configSettingType_from_value_value (t : ConfigSettingType) :
    ConfigSettingType.from_value t.value = some t := by cases t <;> rfl

@[simp] theorem eventType_from_value_value (t : EventType) :
    EventType.from_value t.value = some t := by cases t <;> rfl

@[simp] theorem booleanValue_from_value_value (b : BooleanValue) :
    BooleanValue.from_value b.value = some b := by cases b <;> rfl

@[simp] theorem as_str_list_rt (l : List String) :
    as_str_list (unstructure_str_list l) = .ok l := by
  simp only [as_str_list, unstructure_str_list, as_arr, bind, Except.bind]
  exact list_mapM_rt_cond l (fun a _ => rfl)

@[simp] theorem str_list_of_rt (l : List String) :
    str_list_of (some (unstructure_str_list l)) = .ok l := by
  simp [str_list_of]

@[simp] theorem dict_of_obj (l : List (String × JValue)) :
    dict_of (some (.obj l)) = .ok l := rfl

@[simp] theorem opt_of_obj (x : Option (List (String × JValue))) :
    opt_of (some (unstructure_opt .obj x)) as_obj = .ok x := by cases x <;> rfl

@[simp] theorem required_of_rt (x : Option Bool) :
    required_of (some (unstructure_opt .bool x)) = .ok x := by cases x <;> rfl

theorem rt_EnumOption (v : EnumOption) :
    structure_EnumOption (unstructure_EnumOption v) = .ok v := by
  simp +decide [structure_EnumOption, unstructure_EnumOption, as_obj, req_str, req_field,
    jlookup, as_str, bind, Except.bind, pure, Except.pure]

theorem rt_EnumOptionGroup (v : EnumOptionGroup) :
    structure_EnumOptionGroup (unstructure_EnumOptionGroup v) = .ok v := by
  simp +decide [structure_EnumOptionGroup, unstructure_EnumOptionGroup, as_obj, req_str,
    req_field, jlookup, as_str, as_arr, bind, Except.bind, pure, Except.pure,
    list_mapM_loop_rt0 v.options (fun a _ => rt_EnumOption a)]

@[simp] theorem opt_of_enum_options (x : Option (List EnumOption)) :
    opt_of (some (unstructure_opt unstructure_enum_options x)) structure_enum_options = .ok x := by
  cases x with
  | none => rfl
  | some l =>
    show ((l.map unstructure_EnumOption).mapM structure_EnumOption).map some = .ok (some l)
    rw [list_mapM_rt_cond l (fun a _ => rt_EnumOption a)]
    rfl

@[simp] theorem opt_of_enum_option_groups (x : Option (List EnumOptionGroup)) :
    opt_of (some (unstructure_opt unstructure_enum_option_groups x)) structure_enum_option_groups = .ok x := by
  cases x with
  | none => rfl
  | some l =>
    show ((l.map unstructure_EnumOptionGroup).mapM structure_EnumOptionGroup).map some = .ok (some l)
    rw [list_mapM_rt_cond l (fun a _ => rt_EnumOptionGroup a)]
    rfl

/-- A `ConfigValue` whose discriminator field holds the value selecting its
own class. -/
def ConfigValue.canonical : ConfigValue → Prop
  | .device v => v.value_type = .DEVICE
  | .string v => v.value_type = .STRING

theorem rt_ConfigValue (cv : ConfigValue) (h : cv.canonical) :
    _structure_config_value (unstructure_ConfigValue cv) = .ok cv := by
  cases cv with
  | device v =>
    obtain ⟨dc, vt⟩ := v
    simp only [ConfigValue.canonical] at h
    subst h
    simp +decide [_structure_config_value, unstructure_ConfigValue, unstructure_DeviceConfigValue,
      unstructure_DeviceValue, structure_DeviceConfigValue, structure_DeviceValue, jlookup,
      as_obj, req_str, req_field, as_str, bind, Except.bind, pure, Except.pure,
      value_type_field, value_type_of, ConfigValueType.value, ConfigValueType.from_name,
      ConfigValueType.from_value]
    rfl
  | string v =>
    obtain ⟨sc, vt⟩ := v
    simp only [ConfigValue.canonical] at h
    subst h
    simp +decide [_structure_config_value, unstructure_ConfigValue, unstructure_StringConfigValue,
      unstructure_StringValue, structure_StringConfigValue, structure_StringValue, jlookup,
      as_obj, req_str, req_field, as_str, bind, Except.bind, pure, Except.pure,
      value_type_field, value_type_of, ConfigValueType.value, ConfigValueType.from_name,
      ConfigValueType.from_value]
    rfl

theorem rt_config_dict (m : List (String × List ConfigValue))
    (h : ∀ kv ∈ m, ∀ cv ∈ kv.2, cv.canonical) :
    structure_config_dict (unstructure_config_dict m) = .ok m := by
  simp only [structure_config_dict, unstructure_config_dict, as_obj, bind, Except.bind]
  refine list_mapM_rt_cond m (fun kv hkv => ?_)
  simp [as_arr, bind, Except.bind,
    list_mapM_loop_rt0 kv.2 (fun cv hcv => rt_ConfigValue cv (h kv hkv cv hcv))]

theorem opt_of_config_dict (x : Option (List (String × List ConfigValue)))
    (h : ∀ m, x = some m → ∀ kv ∈ m, ∀ cv ∈ kv.2, cv.canonical) :
    opt_of (some (unstructure_opt unstructure_config_dict x)) structure_config_dict = .ok x := by
  cases x with
  | none => rfl
  | some m =>
    show (structure_config_dict (unstructure_config_dict m)).map some = .ok (some m)
    rw [rt_config_dict m (h m rfl)]
    rfl

theorem opt_of_datetime (now : Arrow) (x : Option Arrow)
    (h : ∀ a, x = some a → a.roundtrippable) :
    opt_of (some (unstructure_opt _unstructure_datetime x)) (_structure_datetime now) = .ok x := by
  cases x with
  | none => rfl
  | some a =>
    show ((deserialize_datetime (serialize_datetime a) now).map some) = .ok (some a)
    rw [deserialize_serialize a now (h a rfl)]
    rfl

/-- A `ConfigSetting` whose discriminator field holds the value selecting its
own class. -/
def ConfigSetting.canonical : ConfigSetting → Prop
  | .device v => v.type = .DEVICE
  | .text v => v.type = .TEXT
  | .boolean v => v.type = .BOOLEAN
  | .enum v => v.type = .ENUM
  | .link v => v.type = .LINK
  | .page v => v.type = .PAGE
  | .image v => v.type = .IMAGE
  | .icon v => v.type = .ICON
  | .time v => v.type = .TIME
  | .paragraph v => v.type = .PARAGRAPH
  | .email v => v.type = .EMAIL
  | .decimal v => v.type = .DECIMAL
  | .number v => v.type = .NUMBER
  | .phone v => v.type = .PHONE
  | .oauth v => v.type = .OAUTH

theorem rt_ConfigSetting (s : ConfigSetting) (h : s.canonical) :
    _structure_config_setting (unstructure_ConfigSetting s) = .ok s := by
  cases s with
  | device v =>
    obtain ⟨a1, a2, a3, a4, a5, a6, a7, a8⟩ := v
    simp only [ConfigSetting.canonical] at h
    subst h
    simp +decide [_structure_config_setting, unstructure_ConfigSetting, unstructure_DeviceSetting,
      structure_DeviceSetting, jlookup, as_obj, req_str, req_field, as_str, req_bool, req_str_list, as_bool,
      bind, Except.bind, pure, Except.pure, required_field, setting_type_field,
      setting_type_of, ConfigSettingType.value, ConfigSettingType.from_name,
      ConfigSettingType.from_value]
    try rfl
  | text v =>
    obtain ⟨a1, a2, a3, a4, a5, a6⟩ := v
    simp only [ConfigSetting.canonical] at h
    subst h
    simp +decide [_structure_config_setting, unstructure_ConfigSetting, unstructure_TextSetting,
      structure_TextSetting, jlookup, as_obj, req_str, req_field, as_str,
      bind, Except.bind, pure, Except.pure, required_field, setting_type_field,
      setting_type_of, ConfigSettingType.value, ConfigSettingType.from_name,
      ConfigSettingType.from_value]
    try rfl
  | boolean v =>
    obtain ⟨a1, a2, a3, a4, a5, a6⟩ := v
    simp only [ConfigSetting.canonical] at h
    subst h
    simp +decide [_structure_config_setting, unstructure_ConfigSetting, unstructure_BooleanSetting,
      structure_BooleanSetting, jlookup, as_obj, req_str, req_field, as_str,
      bind, Except.bind, pure, Except.pure, required_field, setting_type_field,
      setting_type_of, ConfigSettingType.value, ConfigSettingType.from_name,
      ConfigSettingType.from_value]
    try rfl
  | enum v =>
    obtain ⟨a1, a2, a3, a4, a5, a6, a7, a8⟩ := v
    simp only [ConfigSetting.canonical] at h
    subst h
    simp +decide [_structure_config_setting, unstructure_ConfigSetting, unstructure_EnumSetting,
      structure_EnumSetting, jlookup, as_obj, req_str, req_field, as_str, req_bool, as_bool, opt_field,
      bind, Except.bind, pure, Except.pure, required_field, setting_type_field,
      setting_type_of, ConfigSettingType.value, ConfigSettingType.from_name,
      ConfigSettingType.from_value]
    try rfl
  | link v =>
    obtain ⟨a1, a2, a3, a4, a5, a6, a7⟩ := v
    simp only [ConfigSetting.canonical] at h
    subst h
    simp +decide [_structure_config_setting, unstructure_ConfigSetting, unstructure_LinkSetting,
      structure_LinkSetting, jlookup, as_obj, req_str, req_field, as_str,
      bind, Except.bind, pure, Except.pure, required_field, setting_type_field,
      setting_type_of, ConfigSettingType.value, ConfigSettingType.from_name,
      ConfigSettingType.from_value]
    try rfl
  | page v =>
    obtain ⟨a1, a2, a3, a4, a5, a6, a7⟩ := v
    simp only [ConfigSetting.canonical] at h
    subst h
    simp +decide [_structure_config_setting, unstructure_ConfigSetting, unstructure_PageSetting,
      structure_PageSetting, jlookup, as_obj, req_str, req_field, as_str,
      bind, Except.bind, pure, Except.pure, required_field, setting_type_field,
      setting_type_of, ConfigSettingType.value, ConfigSettingType.from_name,
      ConfigSettingType.from_value]
    try rfl
  | image v =>
    obtain ⟨a1, a2, a3, a4, a5, a6⟩ := v
    simp only [ConfigSetting.canonical] at h
    subst h
    simp +decide [_structure_config_setting, unstructure_ConfigSetting, unstructure_ImageSetting,
      structure_ImageSetting, jlookup, as_obj, req_str, req_field, as_str,
      bind, Except.bind, pure, Except.pure, required_field, setting_type_field,
      setting_type_of, ConfigSettingType.value, ConfigSettingType.from_name,
      ConfigSettingType.from_value]
    try rfl
  | icon v =>
    obtain ⟨a1, a2, a3, a4, a5, a6⟩ := v
    simp only [ConfigSetting.canonical] at h
    subst h
    simp +decide [_structure_config_setting, unstructure_ConfigSetting, unstructure_IconSetting,
      structure_IconSetting, jlookup, as_obj, req_str, req_field, as_str,
      bind, Except.bind, pure, Except.pure, required_field, setting_type_field,
      setting_type_of, ConfigSettingType.value, ConfigSettingType.from_name,
      ConfigSettingType.from_value]
    try rfl
  | time v =>
    obtain ⟨a1, a2, a3, a4, a5⟩ := v
    simp only [ConfigSetting.canonical] at h
    subst h
    simp +decide [_structure_config_setting, unstructure_ConfigSetting, unstructure_TimeSetting,
      structure_TimeSetting, jlookup, as_obj, req_str, req_field, as_str,
      bind, Except.bind, pure, Except.pure, required_field, setting_type_field,
      setting_type_of, ConfigSettingType.value, ConfigSettingType.from_name,
      ConfigSettingType.from_value]
    try rfl
  | paragraph v =>
    obtain ⟨a1, a2, a3, a4, a5, a6⟩ := v
    simp only [ConfigSetting.canonical] at h
    subst h
    simp +decide [_structure_config_setting, unstructure_ConfigSetting, unstructure_ParagraphSetting,
      structure_ParagraphSetting, jlookup, as_obj, req_str, req_field, as_str,
      bind, Except.bind, pure, Except.pure, required_field, setting_type_field,
      setting_type_of, ConfigSettingType.value, ConfigSettingType.from_name,
      ConfigSettingType.from_value]
    try rfl
  | email v =>
    obtain ⟨a1, a2, a3, a4, a5⟩ := v
    simp only [ConfigSetting.canonical] at h
    subst h
    simp +decide [_structure_config_setting, unstructure_ConfigSetting, unstructure_EmailSetting,
      structure_EmailSetting, jlookup, as_obj, req_str, req_field, as_str,
      bind, Except.bind, pure, Except.pure, required_field, setting_type_field,
      setting_type_of, ConfigSettingType.value, ConfigSettingType.from_name,
      ConfigSettingType.from_value]
    try rfl
  | decimal v =>
    obtain ⟨a1, a2, a3, a4, a5⟩ := v
    simp only [ConfigSetting.canonical] at h
    subst h
    simp +decide [_structure_config_setting, unstructure_ConfigSetting, unstructure_DecimalSetting,
      structure_DecimalSetting, jlookup, as_obj, req_str, req_field, as_str,
      bind, Except.bind, pure, Except.pure, required_field, setting_type_field,
      setting_type_of, ConfigSettingType.value, ConfigSettingType.from_name,
      ConfigSettingType.from_value]
    try rfl
  | number v =>
    obtain ⟨a1, a2, a3, a4, a5⟩ := v
    simp only [ConfigSetting.canonical] at h
    subst h
    simp +decide [_structure_config_setting, unstructure_ConfigSetting, unstructure_NumberSetting,
      structure_NumberSetting, jlookup, as_obj, req_str, req_field, as_str,
      bind, Except.bind, pure, Except.pure, required_field, setting_type_field,
      setting_type_of, ConfigSettingType.value, ConfigSettingType.from_name,
      ConfigSettingType.from_value]
    try rfl
  | phone v =>
    obtain ⟨a1, a2, a3, a4, a5⟩ := v
    simp only [ConfigSetting.canonical] at h
    subst h
    simp +decide [_structure_config_setting, unstructure_ConfigSetting, unstructure_PhoneSetting,
      structure_PhoneSetting, jlookup, as_obj, req_str, req_field, as_str,
      bind, Except.bind, pure, Except.pure, required_field, setting_type_field,
      setting_type_of, ConfigSettingType.value, ConfigSettingType.from_name,
      ConfigSettingType.from_value]
    try rfl
  | oauth v =>
    obtain ⟨a1, a2, a3, a4, a5, a6, a7⟩ := v
    simp only [ConfigSetting.canonical] at h
    subst h
    simp +decide [_structure_config_setting, unstructure_ConfigSetting, unstructure_OauthSetting,
      structure_OauthSetting, jlookup, as_obj, req_str, req_field, as_str, req_bool, as_bool,
      bind, Except.bind, pure, Except.pure, required_field, setting_type_field,
      setting_type_of, ConfigSettingType.value, ConfigSettingType.from_name,
      ConfigSettingType.from_value]
    try rfl

theorem rt_ConfirmationData (v : ConfirmationData) :
    structure_ConfirmationData (unstructure_ConfirmationData v) = .ok v := by
  simp +decide [structure_ConfirmationData, unstructure_ConfirmationData, as_obj, req_str,
    req_field, jlookup, as_str, bind, Except.bind, pure, Except.pure]

theorem rt_DeviceValue (v : DeviceValue) :
    structure_DeviceValue (unstructure_DeviceValue v) = .ok v := by
  simp +decide [structure_DeviceValue, unstructure_DeviceValue, as_obj, req_str, req_field,
    jlookup, as_str, bind, Except.bind, pure, Except.pure]

theorem rt_ConfigRequestData (v : ConfigRequestData)
    (h : ∀ kv ∈ v.config, ∀ cv ∈ kv.2, cv.canonical) :
    structure_ConfigRequestData (unstructure_ConfigRequestData v) = .ok v := by
  simp +decide [structure_ConfigRequestData, unstructure_ConfigRequestData, as_obj, req_str,
    req_field, jlookup, as_str, bind, Except.bind, pure, Except.pure,
    rt_config_dict v.config h]
  try rfl

theorem rt_InstalledApp (v : InstalledApp)
    (h : ∀ kv ∈ v.config, ∀ cv ∈ kv.2, cv.canonical) :
    structure_InstalledApp (unstructure_InstalledApp v) = .ok v := by
  simp +decide [structure_InstalledApp, unstructure_InstalledApp, jlookup, as_obj, req_str,
    req_field, as_str, bind, Except.bind, pure, Except.pure, opt_str_list_field,
    rt_config_dict v.config h]
  try rfl

theorem rt_Event (now : Arrow) (e : Event)
    (h : ∀ a, e.event_time = some a → a.roundtrippable) :
    structure_Event now (unstructure_Event e) = .ok e := by
  simp +decide [structure_Event, unstructure_Event, jlookup, as_obj, req_str, req_field,
    as_str, bind, Except.bind, pure, Except.pure, opt_field,
    opt_of_datetime now e.event_time h]
  try rfl

theorem rt_InstallData (v : InstallData)
    (h : ∀ kv ∈ v.installed_app.config, ∀ cv ∈ kv.2, cv.canonical) :
    structure_InstallData (unstructure_InstallData v) = .ok v := by
  simp +decide [structure_InstallData, unstructure_InstallData, jlookup, as_obj, req_str,
    req_field, as_str, bind, Except.bind, pure, Except.pure,
    rt_InstalledApp v.installed_app h]
  try rfl

theorem rt_UpdateData (v : UpdateData)
    (h : ∀ kv ∈ v.installed_app.config, ∀ cv ∈ kv.2, cv.canonical)
    (hp : ∀ m, v.previous_config = some m → ∀ kv ∈ m, ∀ cv ∈ kv.2, cv.canonical) :
    structure_UpdateData (unstructure_UpdateData v) = .ok v := by
  simp +decide [structure_UpdateData, unstructure_UpdateData, jlookup, as_obj, req_str,
    req_field, as_str, bind, Except.bind, pure, Except.pure, opt_field, opt_str_list_field,
    rt_InstalledApp v.installed_app h, opt_of_config_dict v.previous_config hp]
  try rfl

theorem rt_UninstallData (v : UninstallData)
    (h : ∀ kv ∈ v.installed_app.config, ∀ cv ∈ kv.2, cv.canonical) :
    structure_UninstallData (unstructure_UninstallData v) = .ok v := by
  simp +decide [structure_UninstallData, unstructure_UninstallData, jlookup, as_obj, req_str,
    req_field, as_str, bind, Except.bind, pure, Except.pure,
    rt_InstalledApp v.installed_app h]
  try rfl

theorem rt_OauthCallbackData (v : OauthCallbackData) :
    structure_OauthCallbackData (unstructure_OauthCallbackData v) = .ok v := by
  simp +decide [structure_OauthCallbackData, unstructure_OauthCallbackData, jlookup, as_obj,
    req_str, req_field, as_str, bind, Except.bind, pure, Except.pure]

theorem rt_EventData (now : Arrow) (v : EventData)
    (h : ∀ kv ∈ v.installed_app.config, ∀ cv ∈ kv.2, cv.canonical)
    (ht : ∀ e ∈ v.events, ∀ a, e.event_time = some a → a.roundtrippable) :
    structure_EventData now (unstructure_EventData v) = .ok v := by
  simp +decide [structure_EventData, unstructure_EventData, jlookup, as_obj, req_str,
    req_field, as_str, as_arr, bind, Except.bind, pure, Except.pure,
    rt_InstalledApp v.installed_app h,
    list_mapM_loop_rt0 v.events (fun e he => rt_Event now e (ht e he)),
    list_mapM_rt_cond v.events (fun e he => rt_Event now e (ht e he))]
  try rfl

theorem rt_ConfirmationRequest (v : ConfirmationRequest) :
    structure_ConfirmationRequest (unstructure_ConfirmationRequest v) = .ok v := by
  simp +decide [structure_ConfirmationRequest, unstructure_ConfirmationRequest, jlookup,
    as_obj, req_str, req_field, as_str, bind, Except.bind, pure, Except.pure,
    lifecycle_field, opt_dict_field, rt_ConfirmationData v.confirmation_data]
  try rfl

theorem rt_ConfigurationRequest (v : ConfigurationRequest)
    (h : ∀ kv ∈ v.configuration_data.config, ∀ cv ∈ kv.2, cv.canonical) :
    structure_ConfigurationRequest (unstructure_ConfigurationRequest v) = .ok v := by
  simp +decide [structure_ConfigurationRequest, unstructure_ConfigurationRequest, jlookup,
    as_obj, req_str, req_field, as_str, bind, Except.bind, pure, Except.pure,
    lifecycle_field, opt_dict_field, rt_ConfigRequestData v.configuration_data h]
  try rfl

theorem rt_InstallRequest (v : InstallRequest)
    (h : ∀ kv ∈ v.install_data.installed_app.config, ∀ cv ∈ kv.2, cv.canonical) :
    structure_InstallRequest (unstructure_InstallRequest v) = .ok v := by
  simp +decide [structure_InstallRequest, unstructure_InstallRequest, jlookup,
    as_obj, req_str, req_field, as_str, bind, Except.bind, pure, Except.pure,
    lifecycle_field, opt_dict_field, rt_InstallData v.install_data h]
  try rfl

theorem rt_UpdateRequest (v : UpdateRequest)
    (h : ∀ kv ∈ v.update_data.installed_app.config, ∀ cv ∈ kv.2, cv.canonical)
    (hp : ∀ m, v.update_data.previous_config = some m → ∀ kv ∈ m, ∀ cv ∈ kv.2, cv.canonical) :
    structure_UpdateRequest (unstructure_UpdateRequest v) = .ok v := by
  simp +decide [structure_UpdateRequest, unstructure_UpdateRequest, jlookup,
    as_obj, req_str, req_field, as_str, bind, Except.bind, pure, Except.pure,
    lifecycle_field, opt_dict_field, rt_UpdateData v.update_data h hp]
  try rfl

theorem rt_UninstallRequest (v : UninstallRequest)
    (h : ∀ kv ∈ v.uninstall_data.installed_app.config, ∀ cv ∈ kv.2, cv.canonical) :
    structure_UninstallRequest (unstructure_UninstallRequest v) = .ok v := by
  simp +decide [structure_UninstallRequest, unstructure_UninstallRequest, jlookup,
    as_obj, req_str, req_field, as_str, bind, Except.bind, pure, Except.pure,
    lifecycle_field, opt_dict_field, rt_UninstallData v.uninstall_data h]
  try rfl

theorem rt_OauthCallbackRequest (v : OauthCallbackRequest) :
    structure_OauthCallbackRequest (unstructure_OauthCallbackRequest v) = .ok v := by
  simp +decide [structure_OauthCallbackRequest, unstructure_OauthCallbackRequest, jlookup,
    as_obj, req_str, req_field, as_str, bind, Except.bind, pure, Except.pure,
    lifecycle_field, rt_OauthCallbackData v.o_auth_callback_data]
  try rfl

theorem rt_EventRequest (now : Arrow) (v : EventRequest)
    (h : ∀ kv ∈ v.event_data.installed_app.config, ∀ cv ∈ kv.2, cv.canonical)
    (ht : ∀ e ∈ v.event_data.events, ∀ a, e.event_time = some a → a.roundtrippable) :
    structure_EventRequest now (unstructure_EventRequest v) = .ok v := by
  simp +decide [structure_EventRequest, unstructure_EventRequest, jlookup,
    as_obj, req_str, req_field, as_str, bind, Except.bind, pure, Except.pure,
    lifecycle_field, opt_dict_field, rt_EventData now v.event_data h ht]
  try rfl

/-- A `LifecycleRequest` whose `lifecycle` discriminator field holds the phase
selecting its own class, and whose nested config values are likewise
canonical. -/
def LifecycleRequest.canonical : LifecycleRequest → Prop
  | .configuration r => r.lifecycle = .CONFIGURATION ∧
      (∀ kv ∈ r.configuration_data.config, ∀ cv ∈ kv.2, cv.canonical)
  | .confirmation r => r.lifecycle = .CONFIRMATION
  | .install r => r.lifecycle = .INSTALL ∧
      (∀ kv ∈ r.install_data.installed_app.config, ∀ cv ∈ kv.2, cv.canonical)
  | .update r => r.lifecycle = .UPDATE ∧
      (∀ kv ∈ r.update_data.installed_app.config, ∀ cv ∈ kv.2, cv.canonical) ∧
      (∀ m, r.update_data.previous_config = some m → ∀ kv ∈ m, ∀ cv ∈ kv.2, cv.canonical)
  | .uninstall r => r.lifecycle = .UNINSTALL ∧
      (∀ kv ∈ r.uninstall_data.installed_app.config, ∀ cv ∈ kv.2, cv.canonical)
  | .oauthCallback r => r.lifecycle = .OAUTH_CALLBACK
  | .event r => r.lifecycle = .EVENT ∧
      (∀ kv ∈ r.event_data.installed_app.config, ∀ cv ∈ kv.2, cv.canonical)

/-- Every timestamp of a `LifecycleRequest` survives the wire round trip
(only EVENT requests carry timestamps). -/
def LifecycleRequest.times_ok : LifecycleRequest → Prop
  | .event r => ∀ e ∈ r.event_data.events, ∀ a, e.event_time = some a → a.roundtrippable
  | _ => True

/-- Round trip of the full `LifecycleRequest` union through the converter. -/
theorem rt_LifecycleRequest (now : Arrow) (r : LifecycleRequest)
    (hc : r.canonical) (ht : r.times_ok) :
    _structure_request now (unstructure_LifecycleRequest r) = .ok r := by
  cases r with
  | configuration r =>
    obtain ⟨h1, h2⟩ := hc
    have hr := rt_ConfigurationRequest r h2
    simp +decide [_structure_request, unstructure_LifecycleRequest,
      unstructure_ConfigurationRequest, jlookup, h1, LifecyclePhase.value,
      LifecyclePhase.from_name] at hr ⊢
    simp [hr]
    try rfl
  | confirmation r =>
    have h1 : r.lifecycle = LifecyclePhase.CONFIRMATION := hc
    have hr := rt_ConfirmationRequest r
    simp +decide [_structure_request, unstructure_LifecycleRequest,
      unstructure_ConfirmationRequest, jlookup, h1, LifecyclePhase.value,
      LifecyclePhase.from_name] at hr ⊢
    simp [hr]
    try rfl
  | install r =>
    obtain ⟨h1, h2⟩ := hc
    have hr := rt_InstallRequest r h2
    simp +decide [_structure_request, unstructure_LifecycleRequest,
      unstructure_InstallRequest, jlookup, h1, LifecyclePhase.value,
      LifecyclePhase.from_name] at hr ⊢
    simp [hr]
    try rfl
  | update r =>
    obtain ⟨h1, h2, h3⟩ := hc
    have hr := rt_UpdateRequest r h2 h3
    simp +decide [_structure_request, unstructure_LifecycleRequest,
      unstructure_UpdateRequest, jlookup, h1, LifecyclePhase.value,
      LifecyclePhase.from_name] at hr ⊢
    simp [hr]
    try rfl
  | uninstall r =>
    obtain ⟨h1, h2⟩ := hc
    have hr := rt_UninstallRequest r h2
    simp +decide [_structure_request, unstructure_LifecycleRequest,
      unstructure_UninstallRequest, jlookup, h1, LifecyclePhase.value,
      LifecyclePhase.from_name] at hr ⊢
    simp [hr]
    try rfl
  | oauthCallback r =>
    have h1 : r.lifecycle = LifecyclePhase.OAUTH_CALLBACK := hc
    have hr := rt_OauthCallbackRequest r
    simp +decide [_structure_request, unstructure_LifecycleRequest,
      unstructure_OauthCallbackRequest, jlookup, h1, LifecyclePhase.value,
      LifecyclePhase.from_name] at hr ⊢
    simp [hr]
    try rfl
  | event r =>
    obtain ⟨h1, h2⟩ := hc
    have hr := rt_EventRequest now r h2 ht
    simp +decide [_structure_request, unstructure_LifecycleRequest,
      unstructure_EventRequest, jlookup, h1, LifecyclePhase.value,
      LifecyclePhase.from_name] at hr ⊢
    simp [hr]
    try rfl

/-! ### C3: round trip -/

/-- C3 (amended): decoding inverts encoding for every `ConfigValue` and
`ConfigSetting` variant whose discriminator field holds its canonical value,
and for every `LifecycleRequest` variant that is likewise canonical and whose
timestamps are `datetime`-valid, millisecond-exact and not the epoch
sentinel.  JSON and YAML share this tree-level marshaling step. -/
theorem c3_roundtrip :
    (∀ cv : ConfigValue, cv.canonical →
      _structure_config_value (unstructure_ConfigValue cv) = .ok cv) ∧
    (∀ s : ConfigSetting, s.canonical →
      _structure_config_setting (unstructure_ConfigSetting s) = .ok s) ∧
    (∀ (now : Arrow) (r : LifecycleRequest), r.canonical → r.times_ok →
      _structure_request now (unstructure_LifecycleRequest r) = .ok r) :=
  ⟨rt_ConfigValue, rt_ConfigSetting, rt_LifecycleRequest⟩

/-- A bare installed application used by the counterexamples. -/
def cexInstalledApp : InstalledApp :=
  { installed_app_id := "app", location_id := "loc", config := [], permissions := [] }

/-- An event whose timestamp has a non-zero sub-millisecond component. -/
def cexEventSubMs : Event :=
  { event_time := some ⟨2017, 9, 13, 4, 18, 12, 992001⟩, event_type := .TIMER_EVENT }

/-- An EVENT request carrying `cexEventSubMs`. -/
def cexRequestSubMs : LifecycleRequest :=
  .event {
    lifecycle := .EVENT, execution_id := "e1", locale := "en_US", version := "0.1",
    event_data := ⟨"token", cexInstalledApp, [cexEventSubMs]⟩, settings := [] }

/-- A `DeviceSetting` whose `type` discriminator field holds `TEXT` (a normal
field of the variant, so this value is constructible). -/
def cexSettingMismatch : ConfigSetting :=
  .device {
    id := "misc1", name := "n", description := "d", required := some false,
    type := .TEXT, multiple := false, capabilities := [], permissions := [] }

/-- An event whose timestamp is exactly the epoch. -/
def cexEventEpoch : Event :=
  { event_time := some epochArrow, event_type := .TIMER_EVENT }

/-- An EVENT request carrying `cexEventEpoch`. -/
def cexRequestEpoch : LifecycleRequest :=
  .event {
    lifecycle := .EVENT, execution_id := "e2", locale := "en_US", version := "0.1",
    event_data := ⟨"token", cexInstalledApp, [cexEventEpoch]⟩, settings := [] }

/-- A current instant distinct from the epoch. -/
def cexNow : Arrow := ⟨2020, 1, 1, 0, 0, 0, 0⟩

/-- The microseconds of the single event's timestamp of a decoded EVENT
request (observer used to discriminate decode results). -/
def observe_event_us : Except PyExc LifecycleRequest → Nat
  | .ok (.event r) =>
    match r.event_data.events with
    | [e] =>
      match e.event_time with
      | some a => a.microsecond
      | none => 0
    | _ => 0
  | _ => 0

/-- The year of the single event's timestamp of a decoded EVENT request. -/
def observe_event_year : Except PyExc LifecycleRequest → Nat
  | .ok (.event r) =>
    match r.event_data.events with
    | [e] =>
      match e.event_time with
      | some a => a.year
      | none => 0
    | _ => 0
  | _ => 0

/-- Whether a decode succeeded. -/
def observe_is_ok {α : Type} : Except PyExc α → Bool
  | .ok _ => true
  | .error _ => false

/-- C3 as stated is false on the code: (1) a timestamp with a sub-millisecond
component is truncated by encoding, so decode of the encoding differs;
(2) a variant whose discriminator field does not select its own class decodes
to a failure (here: a `DeviceSetting` with `type = TEXT`); (3) an epoch
timestamp decodes to the current instant, not to itself. -/
theorem c3_counterexample :
    (_structure_request epochArrow (unstructure_LifecycleRequest cexRequestSubMs) ≠
      .ok cexRequestSubMs) ∧
    (_structure_config_setting (unstructure_ConfigSetting cexSettingMismatch) ≠
      .ok cexSettingMismatch) ∧
    (_structure_request cexNow (unstructure_LifecycleRequest cexRequestEpoch) ≠
      .ok cexRequestEpoch) := by
  refine ⟨fun h => ?_, fun h => ?_, fun h => ?_⟩
  · exact absurd (congrArg observe_event_us h) (by decide)
  · exact absurd (congrArg observe_is_ok h) (by decide)
  · exact absurd (congrArg observe_event_year h) (by decide)

/-- A concrete canonical INSTALL request used as the round-trip witness. -/
def witInstallReq : LifecycleRequest :=
  .install {
    lifecycle := .INSTALL, execution_id := "e3", locale := "en_US", version := "0.1",
    install_data := ⟨"auth", "refresh", cexInstalledApp⟩, settings := [] }

/-- Witness for C3 at a concrete input. -/
theorem c3_roundtrip_witness :
    _structure_request epochArrow (unstructure_LifecycleRequest witInstallReq) =
      .ok witInstallReq :=
  c3_roundtrip.2.2 epochArrow witInstallReq
    ⟨rfl, fun kv h => absurd h (List.not_mem_nil kv)⟩ trivial

/-! ### C7: the field-name transform -/

/-- The attrs field-name lists of every `@frozen` record class in
`interface.py`, in source order (inherited fields first, as attrs collects
them). -/
def recordFieldNames : List (List String) := [
  ["lifecycle", "execution_id", "locale", "version"],
  ["id", "name", "description", "required"],
  ["id", "name", "description", "required", "type", "multiple", "capabilities", "permissions"],
  ["id", "name", "description", "required", "type", "default_value"],
  ["id", "name", "description", "required", "type", "default_value"],
  ["id", "name"],
  ["name", "options"],
  ["id", "name", "description", "required", "type", "multiple", "options", "grouped_options"],
  ["id", "name", "description", "required", "type", "url", "image"],
  ["id", "name", "description", "required", "type", "page", "image"],
  ["id", "name", "description", "required", "type", "image"],
  ["id", "name", "description", "required", "type", "image"],
  ["id", "name", "description", "required", "type"],
  ["id", "name", "description", "required", "type", "default_value"],
  ["id", "name", "description", "required", "type"],
  ["id", "name", "description", "required", "type"],
  ["id", "name", "description", "required", "type"],
  ["id", "name", "description", "required", "type"],
  ["id", "name", "description", "required", "type", "browser", "url_template"],
  ["device_id", "component_id"],
  ["device_config", "value_type"],
  ["value"],
  ["string_config", "value_type"],
  ["installed_app_id", "location_id", "config", "permissions"],
  ["event_time", "event_type", "device_event", "device_lifecycle_event", "device_health_event",
    "device_commands_event", "mode_event", "timer_event", "scene_lifecycle_event",
    "security_arm_state_event", "hub_health_event", "installed_app_lifecycle_event",
    "weather_event", "weather_data", "air_quality_data"],
  ["app_id", "confirmation_url"],
  ["id", "name", "description", "permissions", "first_page_id"],
  ["installed_app_id", "phase", "page_id", "previous_page_id", "config"],
  ["initialize"],
  ["name", "settings"],
  ["page_id", "name", "previous_page_id", "next_page_id", "complete", "sections"],
  ["page"],
  ["auth_token", "refresh_token", "installed_app"],
  ["auth_token", "refresh_token", "installed_app", "previous_config", "previous_permissions"],
  ["installed_app"],
  ["installed_app_id", "url_path"],
  ["auth_token", "installed_app", "events"],
  ["lifecycle", "execution_id", "locale", "version", "app_id", "confirmation_data", "settings"],
  ["target_url"],
  ["lifecycle", "execution_id", "locale", "version", "configuration_data", "settings"],
  ["configuration_data"],
  ["configuration_data"],
  ["lifecycle", "execution_id", "locale", "version", "install_data", "settings"],
  ["install_data"],
  ["lifecycle", "execution_id", "locale", "version", "update_data", "settings"],
  ["update_data"],
  ["lifecycle", "execution_id", "locale", "version", "uninstall_data", "settings"],
  ["uninstall_data"],
  ["lifecycle", "execution_id", "locale", "version", "o_auth_callback_data"],
  ["o_auth_callback_data"],
  ["lifecycle", "execution_id", "locale", "version", "event_data", "settings"],
  ["event_data"],
  ["message", "correlation_id"],
  ["message", "correlation_id"],
  ["message", "correlation_id"],
  ["message", "correlation_id"],
  ["check_signatures", "clock_skew_sec", "keyserver_url", "log_json"],
  ["page_name", "sections"],
  ["id", "name", "description", "target_url", "permissions", "config_pages"],
  ["headers", "body", "normalized", "correlation_id", "signature", "date"]]

/-- C7: `_to_camel_case` is deterministic (equal inputs give equal outputs),
and over every record's actual field-name list no two distinct fields collide
after the transform (the transformed list has no duplicates). -/
theorem c7_to_wire_name :
    (∀ a b : String, a = b → toCamelCase a = toCamelCase b) ∧
    (∀ fs ∈ recordFieldNames, (fs.map toCamelCase).Nodup) := by
  refine ⟨fun a b h => h ▸ rfl, ?_⟩
  decide

/-- Witness for C7 at concrete inputs. -/
theorem c7_to_wire_name_witness :
    toCamelCase "execution_id" = toCamelCase "execution_id" ∧
    ((["lifecycle", "execution_id", "locale", "version", "install_data",
      "settings"].map toCamelCase).Nodup) :=
  ⟨c7_to_wire_name.1 "execution_id" "execution_id" rfl,
    c7_to_wire_name.2 _ (by decide)⟩

/-! ### C9: request-context header derivation -/

theorem normalized_aux (l : List (String × String)) (k : String) (acc : Option String)
    (h : ∀ kv ∈ l, pyLower kv.1 ≠ k) :
    List.foldl (fun acc kv => if pyLower kv.1 = k then some kv.2 else acc) acc l = acc := by
  induction l generalizing acc with
  | nil => rfl
  | cons x xs ih =>
    simp only [List.foldl_cons]
    rw [if_neg (h x (by simp))]
    exact ih acc (fun kv hkv => h kv (by simp [hkv]))

theorem normalized_eq_none (l : List (String × String)) (k : String)
    (h : ∀ kv ∈ l, pyLower kv.1 ≠ k) : normalized l k = none :=
  normalized_aux l k none h

/-- C9: constructing the request context derives correlation id, signature and
date via the `header` lookup; `header` is case-insensitive in the header name
(it depends only on the lower-cased name); a name under which no header was
supplied yields `none`; and a header present with a value that strips to the
empty string (empty or whitespace-only) also yields `none`. -/
theorem c9_context_header_derivation :
    (∀ (ctx : SmartAppRequestContext) (n1 n2 : String), pyLower n1 = pyLower n2 →
      ctx.header n1 = ctx.header n2) ∧
    (∀ (ctx : SmartAppRequestContext) (name : String),
      (∀ kv ∈ ctx.headers, pyLower kv.1 ≠ pyLower name) → ctx.header name = none) ∧
    (∀ (ctx : SmartAppRequestContext) (name v : String),
      normalized ctx.headers (pyLower name) = some v → pyStrip v = "" →
      ctx.header name = none) ∧
    (∀ ctx : SmartAppRequestContext,
      ctx.correlation_id = ctx.header CORRELATION_ID_HEADER ∧
      ctx.signature_header = ctx.header AUTHORIZATION_HEADER ∧
      ctx.date = ctx.header DATE_HEADER) := by
  refine ⟨?_, ?_, ?_, fun ctx => ⟨rfl, rfl, rfl⟩⟩
  · intro ctx n1 n2 h
    simp only [SmartAppRequestContext.header, h]
  · intro ctx name h
    simp only [SmartAppRequestContext.header, normalized_eq_none ctx.headers (pyLower name) h]
  · intro ctx name v h hv
    simp only [SmartAppRequestContext.header, h]
    rw [if_pos (Or.inr hv)]

/-- The headers of the witness context: mixed-case names, one blank value,
one whitespace-only value. -/
def witCtx : SmartAppRequestContext :=
  { headers := [("Date", "the-date"), ("Authorization", "sig"),
      ("X-ST-Correlation", "corr"), ("empty", ""), ("whitespace", "\t\n")],
    body := .parsed .null }

/-- Witness for C9 at concrete inputs. -/
theorem c9_context_header_derivation_witness :
    witCtx.header "DATE" = witCtx.header "date" ∧
    witCtx.header "missing" = none ∧
    witCtx.header "whitespace" = none ∧
    witCtx.correlation_id = witCtx.header CORRELATION_ID_HEADER :=
  ⟨c9_context_header_derivation.1 witCtx "DATE" "date" (by decide),
    c9_context_header_derivation.2.1 witCtx "missing" (by decide),
    c9_context_header_derivation.2.2.1 witCtx "whitespace" "\t\n" rfl (by decide),
    (c9_context_header_derivation.2.2.2 witCtx).1⟩

/-! ### C6: in-range page linkage -/

/-- C6: for an in-range request (`1 ≤ pid ≤ totalPages`) against a non-empty
page list, the built page has `previousPageId = pid-1` exactly when `pid > 1`
(absent otherwise), `nextPageId = pid+1` exactly when `pid < totalPages`
(absent otherwise), and `complete` iff `pid ≥ totalPages`. -/
theorem c6_page_linkage (defn : SmartAppDefinition) (pages : List SmartAppConfigPage)
    (pid : Int) (hp : defn.config_pages = some pages) (hne : pages ≠ [])
    (h1 : 1 ≤ pid) (h2 : pid ≤ (pages.length : Int)) :
    ∃ resp : ConfigurationPageResponse, handle_page defn pid = .ok resp ∧
      resp.configuration_data.page.page_id = toString pid ∧
      resp.configuration_data.page.previous_page_id =
        (if 1 < pid then some (toString (pid - 1)) else none) ∧
      resp.configuration_data.page.next_page_id =
        (if pid < (pages.length : Int) then some (toString (pid + 1)) else none) ∧
      resp.configuration_data.page.complete = decide (pid ≥ (pages.length : Int)) := by
  match pages, hne with
  | p :: ps, _ =>
    have hlt : (pid - 1).toNat < (p :: ps).length := by
      simp only [List.length_cons] at h2 ⊢
      omega
    have hidx : pyIndex (p :: ps) (pid - 1) = some ((p :: ps).get ⟨(pid - 1).toNat, hlt⟩) := by
      rw [pyIndex, if_pos (by omega)]
      exact List.get?_eq_get hlt
    refine ⟨build_page_response pid ((p :: ps).get ⟨(pid - 1).toNat, hlt⟩).page_name
      (if pid = 1 then none else some (pid - 1))
      (if pid ≥ (((p :: ps).length : Nat) : Int) then none else some (pid + 1))
      (decide (pid ≥ (((p :: ps).length : Nat) : Int)))
      ((p :: ps).get ⟨(pid - 1).toNat, hlt⟩).sections, ?_, rfl, ?_, ?_, rfl⟩
    · rw [handle_page, hp]
      simp only [hidx]
    · simp only [build_page_response]
      by_cases hone : pid = 1
      · subst hone
        rw [if_pos rfl, if_neg (by omega)]
        rfl
      · rw [if_neg hone, if_pos (show 1 < pid by omega)]
        simp only [str_if_truthy]
        rw [if_neg (show ¬(pid - 1 = 0) by omega)]
    · simp only [build_page_response]
      rcases lt_or_ge pid (((p :: ps).length : Nat) : Int) with hl | hg
      · rw [if_neg (show ¬(pid ≥ (((p :: ps).length : Nat) : Int)) by omega), if_pos hl]
        simp only [str_if_truthy]
        rw [if_neg (show ¬(pid + 1 = 0) by omega)]
      · rw [if_pos hg, if_neg (show ¬(pid < (((p :: ps).length : Nat) : Int)) by omega)]
        rfl

/-- Three empty config pages for the page-linkage witnesses. -/
def witPages3 : List SmartAppConfigPage :=
  [⟨"Page 1", []⟩, ⟨"Page 2", []⟩, ⟨"Page 3", []⟩]

/-- A static definition with three configured pages. -/
def witDefn3 : SmartAppDefinition :=
  { id := "app", name := "App", description := "d",
    target_url := "https://example.com/app", permissions := [],
    config_pages := some witPages3 }

/-- Witness for C6 at `totalPages = 3`, `pageIndex = 2`. -/
theorem c6_page_linkage_witness :
    ∃ resp : ConfigurationPageResponse, handle_page witDefn3 2 = .ok resp ∧
      resp.configuration_data.page.page_id = toString (2 : Int) ∧
      resp.configuration_data.page.previous_page_id =
        (if (1 : Int) < 2 then some (toString ((2 : Int) - 1)) else none) ∧
      resp.configuration_data.page.next_page_id =
        (if (2 : Int) < (witPages3.length : Int) then some (toString ((2 : Int) + 1)) else none) ∧
      resp.configuration_data.page.complete = decide ((2 : Int) ≥ (witPages3.length : Int)) :=
  c6_page_linkage witDefn3 witPages3 2 rfl (by decide) (by decide) (by decide)

/-! ### C1: out-of-range page index -/

/-- A parsed CONFIGURATION/PAGE request body with the given `pageId` string. -/
def configPageBody (pid : String) : JValue :=
  .obj [("lifecycle", .str "CONFIGURATION"),
    ("executionId", .str "e"),
    ("locale", .str "en_US"),
    ("version", .str "0.1"),
    ("configurationData", .obj [
      ("installedAppId", .str "app"),
      ("phase", .str "PAGE"),
      ("pageId", .str pid),
      ("previousPageId", .str ""),
      ("config", .obj [])]),
    ("settings", .obj [])]

/-- A context carrying a correlation id and the given parsed body. -/
def ctxWithBody (j : JValue) : SmartAppRequestContext :=
  { headers := [("x-st-correlation", "abc123")], body := .parsed j }

/-- A dispatcher configuration with signature checking disabled. -/
def noSigCfg : SmartAppDispatcherConfig := { check_signatures := false }

/-- A handler whose callbacks all return normally. -/
def noopHandler : SmartAppEventHandler := fun _ _ => none

/-- C1 is the intent of the code but the code misses it for small negative
indexes: `pageIndex = 0` against three configured pages silently returns a
page response built from the LAST page (Python list subscription `pages[-1]`),
with `previousPageId = "-1"`, instead of raising the "page not found"
`BadRequestError`.  For `pageIndex = 4` (above `totalPages`) the claimed
behaviour does hold. -/
theorem c1_page_out_of_range_evaluation :
    handle_page witDefn3 0 =
      .ok (build_page_response 0 "Page 3" (some (-1)) (some 1) false []) ∧
    (dispatch noSigCfg witDefn3 noopHandler none epochArrow
        (ctxWithBody (configPageBody "0"))).2 =
      .ok (unstructure_LifecycleResponse (.configurationPage
        (build_page_response 0 "Page 3" (some (-1)) (some 1) false []))) ∧
    handle_page witDefn3 4 = .error (.valueError "Page not found: 4") ∧
    (dispatch noSigCfg witDefn3 noopHandler none epochArrow
        (ctxWithBody (configPageBody "4"))).2 =
      .error ⟨.badRequest, "Page not found: 4", some "abc123"⟩ :=
  ⟨rfl, rfl, rfl, rfl⟩

/-! ### C10: page_id integer conversion -/

/-- C10: a CONFIGURATION request whose sub-phase is not INITIALIZE has its
`page_id` string parsed with `int()` before page resolution; an invalid
integer literal raises `ValueError`, which `dispatch` maps to
`BadRequestError` (not `InternalError`), with the context's correlation id. -/
theorem c10_page_id_int_conversion (cfg : SmartAppDispatcherConfig)
    (defn : SmartAppDefinition) (handler : SmartAppEventHandler)
    (verifier : Option PyExc) (now : Arrow) (ctx : SmartAppRequestContext)
    (j : JValue) (r : ConfigurationRequest)
    (hb : ctx.body = .parsed j)
    (hd : _structure_request now j = .ok (.configuration r))
    (hv : cfg.check_signatures = true → verifier = none)
    (hph : r.configuration_data.phase ≠ ConfigPhase.INIT)
    (hh : handler ctx.correlation_id (.configuration r) = none)
    (hint : pyInt r.configuration_data.page_id = none) :
    (dispatch cfg defn handler verifier now ctx).2 =
      .error ⟨.badRequest,
        "invalid literal for int() with base 10: " ++ pyQuote r.configuration_data.page_id,
        ctx.correlation_id⟩ := by
  simp only [dispatch, hb, hd]
  by_cases hcs : cfg.check_signatures
  · rw [if_pos hcs, hv hcs]
    simp [dispatch_route, handle_request, hh, handle_config_request, if_neg hph, hint,
      map_exception]
  · rw [if_neg hcs]
    simp [dispatch_route, handle_request, hh, handle_config_request, if_neg hph, hint,
      map_exception]

/-- Witness for C10 at the concrete page id `"abc"`. -/
theorem c10_page_id_int_conversion_witness :
    (dispatch noSigCfg witDefn3 noopHandler none epochArrow
        (ctxWithBody (configPageBody "abc"))).2 =
      .error ⟨.badRequest, "invalid literal for int() with base 10: " ++ pyQuote "abc",
        some "abc123"⟩ :=
  c10_page_id_int_conversion noSigCfg witDefn3 noopHandler none epochArrow
    (ctxWithBody (configPageBody "abc")) (configPageBody "abc")
    ⟨.CONFIGURATION, "e", "en_US", "0.1", ⟨"app", .PAGE, "abc", "", []⟩, []⟩
    rfl rfl (fun h => by exact absurd h (by decide)) (by decide) rfl rfl

/-! ### C2: handler-callback failures -/

/-- C2 (amended): when the handler callback raises, dispatch aborts with the
error mapped through the `except` ladder: a handler-raised `SmartAppError`
propagates unchanged with its own kind and correlation id; a
`JSONDecodeError` or any other `ValueError` is converted to
`BadRequestError`; everything else becomes `InternalError`; the converted
kinds carry the correlation id from the headers. -/
theorem c2_handler_error_mapping (cfg : SmartAppDispatcherConfig)
    (defn : SmartAppDefinition) (handler : SmartAppEventHandler)
    (verifier : Option PyExc) (now : Arrow) (ctx : SmartAppRequestContext)
    (j : JValue) (req : LifecycleRequest) (e : PyExc)
    (hb : ctx.body = .parsed j)
    (hd : _structure_request now j = .ok req)
    (hv : cfg.check_signatures = true → verifier = none)
    (hh : handler ctx.correlation_id req = some e) :
    (dispatch cfg defn handler verifier now ctx).2 =
      .error (map_exception e ctx.correlation_id) ∧
    (∀ m, e = .otherError m →
      map_exception e ctx.correlation_id = ⟨.internal, m, ctx.correlation_id⟩) ∧
    (∀ m, e = .keyError m →
      map_exception e ctx.correlation_id = ⟨.internal, m, ctx.correlation_id⟩) ∧
    (∀ m, e = .valueError m →
      map_exception e ctx.correlation_id = ⟨.badRequest, m, ctx.correlation_id⟩) ∧
    (∀ m, e = .jsonDecodeError m →
      map_exception e ctx.correlation_id = ⟨.badRequest, "Invalid JSON", ctx.correlation_id⟩) ∧
    (∀ k m c, e = .smartAppError k m c →
      map_exception e ctx.correlation_id = ⟨k, m, c⟩) := by
  refine ⟨?_, fun m hm => by subst hm; rfl, fun m hm => by subst hm; rfl,
    fun m hm => by subst hm; rfl, fun m hm => by subst hm; rfl,
    fun k m c hm => by subst hm; rfl⟩
  simp only [dispatch, hb, hd]
  by_cases hcs : cfg.check_signatures
  · rw [if_pos hcs, hv hcs]
    simp [dispatch_route, handle_request, hh]
  · rw [if_neg hcs]
    simp [dispatch_route, handle_request, hh]

/-- A parsed INSTALL request body. -/
def installBody : JValue :=
  .obj [("lifecycle", .str "INSTALL"),
    ("executionId", .str "e"),
    ("locale", .str "en_US"),
    ("version", .str "0.1"),
    ("installData", .obj [
      ("authToken", .str "at"),
      ("refreshToken", .str "rt"),
      ("installedApp", .obj [
        ("installedAppId", .str "app"),
        ("locationId", .str "loc"),
        ("config", .obj []),
        ("permissions", .arr [])])]),
    ("settings", .obj [])]

/-- A handler whose callbacks raise `ValueError("boom")`. -/
def valueErrorHandler : SmartAppEventHandler := fun _ _ => some (.valueError "boom")

/-- A handler whose callbacks raise a plain `Exception("kaboom")`. -/
def otherErrorHandler : SmartAppEventHandler := fun _ _ => some (.otherError "kaboom")

/-- C2 as stated is false on the code: an INSTALL dispatch whose handler
raises `ValueError("boom")` aborts with `BadRequestError`, not
`InternalError` (the dispatch `except ValueError` clause catches it first). -/
theorem c2_counterexample :
    (dispatch noSigCfg witDefn3 valueErrorHandler none epochArrow
        (ctxWithBody installBody)).2 =
      .error ⟨.badRequest, "boom", some "abc123"⟩ ∧
    ErrKind.badRequest ≠ ErrKind.internal :=
  ⟨rfl, by decide⟩

/-- Witness for C2 (amended) at a concrete unclassified handler error. -/
theorem c2_handler_error_mapping_witness :
    (dispatch noSigCfg witDefn3 otherErrorHandler none epochArrow
        (ctxWithBody installBody)).2 =
      .error (map_exception (.otherError "kaboom") (some "abc123")) ∧
    map_exception (.otherError "kaboom") (some "abc123") =
      ⟨.internal, "kaboom", some "abc123"⟩ :=
  have h := c2_handler_error_mapping noSigCfg witDefn3 otherErrorHandler none epochArrow
    (ctxWithBody installBody) installBody
    (.install ⟨.INSTALL, "e", "en_US", "0.1", ⟨"at", "rt", ⟨"app", "loc", [], []⟩⟩, []⟩)
    (.otherError "kaboom") rfl rfl (fun hc => by exact absurd hc (by decide)) rfl
  ⟨h.1, h.2.1 "kaboom" rfl⟩

/-! ### C5: unknown discriminators -/

/-- At each of the three discriminated-union sites, a discriminator string
that is not a recognized member makes the hook fail with a `ValueError` whose
message names the offending kind — no default variant is produced — and for
the top-level lifecycle site (whose hook `dispatch` invokes directly, so its
`ValueError` escapes unwrapped) the failure surfaces as `BadRequestError`
with the same message and the correlation id. -/
theorem unknown_discriminator_site_errors :
    (∀ (now : Arrow) (fs : List (String × JValue)) (s : String),
      jlookup fs "lifecycle" = some (.str s) → LifecyclePhase.from_name s = none →
      _structure_request now (.obj fs) = .error (.valueError "Unknown lifecycle phase")) ∧
    (∀ (fs : List (String × JValue)) (s : String),
      jlookup fs "valueType" = some (.str s) → ConfigValueType.from_name s = none →
      _structure_config_value (.obj fs) = .error (.valueError "Unknown config value type")) ∧
    (∀ (fs : List (String × JValue)) (s : String),
      jlookup fs "type" = some (.str s) → ConfigSettingType.from_name s = none →
      _structure_config_setting (.obj fs) = .error (.valueError "Unknown config setting type")) ∧
    (∀ (cfg : SmartAppDispatcherConfig) (defn : SmartAppDefinition)
      (handler : SmartAppEventHandler) (verifier : Option PyExc) (now : Arrow)
      (ctx : SmartAppRequestContext) (fs : List (String × JValue)) (s : String),
      ctx.body = .parsed (.obj fs) → jlookup fs "lifecycle" = some (.str s) →
      LifecyclePhase.from_name s = none →
      (dispatch cfg defn handler verifier now ctx).2 =
        .error ⟨.badRequest, "Unknown lifecycle phase", ctx.correlation_id⟩) := by
  have hreq : ∀ (now : Arrow) (fs : List (String × JValue)) (s : String),
      jlookup fs "lifecycle" = some (.str s) → LifecyclePhase.from_name s = none →
      _structure_request now (.obj fs) = .error (.valueError "Unknown lifecycle phase") := by
    intro now fs s h1 h2
    simp only [_structure_request, h1, h2]
  refine ⟨hreq, ?_, ?_, ?_⟩
  · intro fs s h1 h2
    simp only [_structure_config_value, h1, h2]
  · intro fs s h1 h2
    simp only [_structure_config_setting, h1, h2]
  · intro cfg defn handler verifier now ctx fs s hb h1 h2
    simp only [dispatch, hb, hreq now fs s h1 h2, map_exception]

/-- `unknown_discriminator_site_errors` at the concrete discriminator
`"BOGUS"`. -/
theorem unknown_discriminator_site_errors_example :
    _structure_request epochArrow (.obj [("lifecycle", .str "BOGUS")]) =
      .error (.valueError "Unknown lifecycle phase") ∧
    _structure_config_value (.obj [("valueType", .str "BOGUS")]) =
      .error (.valueError "Unknown config value type") ∧
    _structure_config_setting (.obj [("type", .str "BOGUS")]) =
      .error (.valueError "Unknown config setting type") ∧
    (dispatch noSigCfg witDefn3 noopHandler none epochArrow
        (ctxWithBody (.obj [("lifecycle", .str "BOGUS")]))).2 =
      .error ⟨.badRequest, "Unknown lifecycle phase", some "abc123"⟩ :=
  ⟨unknown_discriminator_site_errors.1 epochArrow [("lifecycle", .str "BOGUS")] "BOGUS" rfl rfl,
    unknown_discriminator_site_errors.2.1 [("valueType", .str "BOGUS")] "BOGUS" rfl rfl,
    unknown_discriminator_site_errors.2.2.1 [("type", .str "BOGUS")] "BOGUS" rfl rfl,
    unknown_discriminator_site_errors.2.2.2 noSigCfg witDefn3 noopHandler none epochArrow
      (ctxWithBody (.obj [("lifecycle", .str "BOGUS")])) [("lifecycle", .str "BOGUS")]
      "BOGUS" rfl rfl rfl⟩

/-! ### C8: the signature-check gate -/

/-- C8: `check_signatures` defaults to true; when it is false the
`SignatureVerifier` is never invoked on any request (no `verified` step ever
appears in the trace); when it is true, verification runs immediately after a
successful decode and before routing: the trace starts `decoded, verified`,
and the remainder holds at most the routing and response steps. -/
theorem c8_signature_gate :
    defaultDispatcherConfig.check_signatures = true ∧
    (∀ (cfg : SmartAppDispatcherConfig) (defn : SmartAppDefinition)
      (handler : SmartAppEventHandler) (verifier : Option PyExc) (now : Arrow)
      (ctx : SmartAppRequestContext), cfg.check_signatures = false →
      DispatchStep.verified ∉ (dispatch cfg defn handler verifier now ctx).1) ∧
    (∀ (cfg : SmartAppDispatcherConfig) (defn : SmartAppDefinition)
      (handler : SmartAppEventHandler) (verifier : Option PyExc) (now : Arrow)
      (ctx : SmartAppRequestContext) (j : JValue) (req : LifecycleRequest),
      cfg.check_signatures = true → ctx.body = .parsed j →
      _structure_request now j = .ok req →
      ∃ rest, (dispatch cfg defn handler verifier now ctx).1 =
        DispatchStep.decoded :: DispatchStep.verified :: rest ∧
        DispatchStep.verified ∉ rest ∧ DispatchStep.decoded ∉ rest ∧
        (∀ x ∈ rest, x = DispatchStep.routed ∨ x = DispatchStep.responded)) := by
  refine ⟨rfl, ?_, ?_⟩
  · intro cfg defn handler verifier now ctx hcs
    simp only [dispatch, hcs]
    rcases ctx with ⟨headers, body⟩
    cases body with
    | malformed m => simp
    | parsed j =>
      simp only
      cases _structure_request now j with
      | error e => simp
      | ok req =>
        simp only [Bool.false_eq_true, if_false, dispatch_route]
        cases handle_request defn handler
            (SmartAppRequestContext.correlation_id ⟨headers, .parsed j⟩) req with
        | error e => simp
        | ok resp => simp
  · intro cfg defn handler verifier now ctx j req hcs hb hd
    simp only [dispatch, hb, hd, hcs, if_true]
    cases verifier with
    | some e => exact ⟨[], rfl, by decide, by decide, by simp⟩
    | none =>
      simp only [dispatch_route]
      cases handle_request defn handler ctx.correlation_id req with
      | error e =>
        exact ⟨[.routed], rfl, by decide, by decide, by decide⟩
      | ok resp =>
        exact ⟨[.routed, .responded], rfl, by decide, by decide, by decide⟩

/-- Witness for C8 at concrete inputs: with signature checking disabled the
trace of a dispatched INSTALL request has no verification step; with the
default configuration (checking enabled) the same request's trace begins
with decode then verify. -/
theorem c8_signature_gate_witness :
    DispatchStep.verified ∉ (dispatch noSigCfg witDefn3 noopHandler none epochArrow
      (ctxWithBody installBody)).1 ∧
    (∃ rest, (dispatch defaultDispatcherConfig witDefn3 noopHandler none epochArrow
        (ctxWithBody installBody)).1 =
      DispatchStep.decoded :: DispatchStep.verified :: rest ∧
      DispatchStep.verified ∉ rest ∧ DispatchStep.decoded ∉ rest ∧
      (∀ x ∈ rest, x = DispatchStep.routed ∨ x = DispatchStep.responded)) :=
  ⟨c8_signature_gate.2.1 noSigCfg witDefn3 noopHandler none epochArrow
      (ctxWithBody installBody) rfl,
    c8_signature_gate.2.2 defaultDispatcherConfig witDefn3 noopHandler none epochArrow
      (ctxWithBody installBody) installBody
      (.install ⟨.INSTALL, "e", "en_US", "0.1", ⟨"at", "rt", ⟨"app", "loc", [], []⟩⟩, []⟩)
      rfl rfl rfl⟩

/-- A parsed CONFIGURATION/PAGE request body whose config dictionary carries
a value with the unrecognized discriminator `valueType = "BOGUS"`. -/
def configBadValueBody : JValue :=
  .obj [("lifecycle", .str "CONFIGURATION"),
    ("executionId", .str "e"),
    ("locale", .str "en_US"),
    ("version", .str "0.1"),
    ("configurationData", .obj [
      ("installedAppId", .str "app"),
      ("phase", .str "PAGE"),
      ("pageId", .str "1"),
      ("previousPageId", .str ""),
      ("config", .obj [("minutes", .arr [.obj [("valueType", .str "BOGUS")]])])]),
    ("settings", .obj [])]

/-- C5 is the intent of the code but the code misses it for the two nested
sites.  Evaluations: (1) an unknown top-level `lifecycle` discriminator does
dispatch to `BadRequestError("Unknown lifecycle phase")` as claimed; (2), (3)
the `valueType` and `type` hooks raise `ValueError` naming the offending kind
(never a default variant), which the dispatch ladder would classify as
`BadRequestError` — the evident intent of converting the hooks' `KeyError`
into those `ValueError`s; but (4) those two sites are only reached nested
inside cattrs structuring, whose detailed validation wraps the hook's
`ValueError` in a `ClassValidationError` exception group (not a `ValueError`),
so a dispatched CONFIGURATION request carrying `valueType = "BOGUS"` aborts
with `InternalError`, not the claimed `BadRequestError`. -/
theorem c5_unknown_discriminator_evaluation :
    (dispatch noSigCfg witDefn3 noopHandler none epochArrow
        (ctxWithBody (.obj [("lifecycle", .str "BOGUS")]))).2 =
      .error ⟨.badRequest, "Unknown lifecycle phase", some "abc123"⟩ ∧
    _structure_config_value (.obj [("valueType", .str "BOGUS")]) =
      .error (.valueError "Unknown config value type") ∧
    _structure_config_setting (.obj [("type", .str "BOGUS")]) =
      .error (.valueError "Unknown config setting type") ∧
    (dispatch noSigCfg witDefn3 noopHandler none epochArrow
        (ctxWithBody configBadValueBody)).2 =
      .error ⟨.internal, "While structuring ConfigurationRequest", some "abc123"⟩ ∧
    ErrKind.internal ≠ ErrKind.badRequest :=
  ⟨rfl, rfl, rfl, rfl, by decide⟩
